import Mathlib

/-!
# Verification of the IBKR monthly-report extraction core (map2.py)

Shallow embedding of the data model and operations of the repository's
extraction core: the three-strategy tabular extraction engine, the
narrative (press-release) extraction engine, the period resolver, the
schema mapper with its derived cash-percentage field, and the CSV record
builder.  Text is modelled as `List Char`; the fractional values that the
Python code handles as IEEE doubles are modelled over `ℚ` (the decimal
strings occurring in the pipeline parse exactly into `ℚ`, and the one
formatted derived value is modelled with the same round-half-to-even rule
that Python's fixed-point formatting uses).
-/

namespace IBKR

/-- Text is a list of characters (Python `str`). -/
abbrev Str : Type := List Char

/-- Coerce a Lean string literal into the `Str` model. -/
def strL (s : String) : Str := s.data

/-- Python `str.isspace` characters relevant to `strip`/`split`. -/
def pyIsSpace (c : Char) : Bool :=
  c = ' ' ∨ c = '\t' ∨ c = '\n' ∨ c = '\r' ∨ c = '\x0b' ∨ c = '\x0c'

/-- ASCII decimal digit (Python regex `\d` on these documents). -/
def isDigitChar (c : Char) : Bool := '0' ≤ c ∧ c ≤ '9'

/-- Character class `[\d,]`. -/
def isDigitComma (c : Char) : Bool := isDigitChar c ∨ c = ','

/-- Character class `[\d.]`. -/
def isDigitDot (c : Char) : Bool := isDigitChar c ∨ c = '.'

/-- Lowercasing, Python `str.lower` (ASCII as used by these documents). -/
def pyLower (s : Str) : Str := s.map Char.toLower

/-- `startsWithL pat s` decides whether `pat` is an initial segment of `s`. -/
def startsWithL : Str → Str → Bool
  | [], _ => true
  | _ :: _, [] => false
  | p :: ps, c :: cs => p = c && startsWithL ps cs

/-- Auxiliary scanner for substring search. -/
def hasSubstrAux (pat : Str) : Str → Bool
  | [] => startsWithL pat []
  | c :: rest => startsWithL pat (c :: rest) || hasSubstrAux pat rest

/-- Python `pat in s` (substring test). -/
def hasSubstr (s pat : Str) : Bool := hasSubstrAux pat s

/-- Case-insensitive substring test (regex `re.IGNORECASE` on a literal). -/
def ciHasSubstr (s pat : Str) : Bool := hasSubstr (pyLower s) (pyLower pat)

/-- Python `str.strip()` with no argument. -/
def pyStrip (s : Str) : Str :=
  ((s.dropWhile pyIsSpace).reverse.dropWhile pyIsSpace).reverse

/-- Python `s.split(sep)` for a single-character separator (keeps empties). -/
def splitOnChar (sep : Char) (s : Str) : List Str :=
  let p := s.foldr
    (fun c (acc : Str × List Str) =>
      if c = sep then ([], acc.1 :: acc.2) else (c :: acc.1, acc.2))
    ([], [])
  p.1 :: p.2

/-- Python `s.split('\n')`. -/
def splitLines (s : Str) : List Str := splitOnChar '\n' s

/-- Python `s.split()` with no argument: split on whitespace runs, no empties. -/
def pySplitWs (s : Str) : List Str :=
  let p := s.foldr
    (fun c (acc : Str × List Str) =>
      if pyIsSpace c then ([], if acc.1 = [] then acc.2 else acc.1 :: acc.2)
      else (c :: acc.1, acc.2))
    ([], [])
  if p.1 = [] then p.2 else p.1 :: p.2

/-- Python `" ".join(parts)`. -/
def joinSpace : List Str → Str
  | [] => []
  | [x] => x
  | x :: y :: rest => x ++ ' ' :: joinSpace (y :: rest)

/-- Remove every occurrence of the characters in `bad` (regex `re.sub('[..]','')`,
or a chain of single-character `str.replace`). -/
def stripCharsOf (bad : List Char) (s : Str) : Str :=
  s.filter (fun c => ¬ bad.contains c)

/-- `replaceAllAux pat rep skip s`: emit `s` with every occurrence of `pat`
replaced by `rep`, where the first `skip` characters are part of an already
replaced occurrence and are dropped. -/
def replaceAllAux (pat rep : Str) : Nat → Str → Str
  | _, [] => []
  | Nat.succ k, _ :: rest => replaceAllAux pat rep k rest
  | 0, c :: rest =>
    if startsWithL pat (c :: rest) then
      rep ++ replaceAllAux pat rep (pat.length - 1) rest
    else c :: replaceAllAux pat rep 0 rest

/-- Python `s.replace(pat, rep)` for non-empty `pat` (every use in the source
has a non-empty pattern; an empty pattern is returned unchanged here). -/
def replaceAll (s pat rep : Str) : Str :=
  if pat = [] then s else replaceAllAux pat rep 0 s

/-- Decimal digits of a number, Python `str(n)` for a non-negative int. -/
def natToChars (n : Nat) : Str := (Nat.repr n).data

/-- Numeric value of a digit string, Python `int` on an all-digit string. -/
def digitsVal (s : Str) : Nat :=
  s.foldl (fun a c => a * 10 + (c.toNat - 48)) 0

/-- Python `int(s)` restricted to optionally signed decimal strings
(the only shapes that reach it in this program). -/
def pyIntParse (s : Str) : Option Int :=
  match pyStrip s with
  | '-' :: rest =>
    if rest ≠ [] ∧ rest.all isDigitChar then some (-(digitsVal rest : Int)) else none
  | '+' :: rest =>
    if rest ≠ [] ∧ rest.all isDigitChar then some ((digitsVal rest : Int)) else none
  | t => if t ≠ [] ∧ t.all isDigitChar then some ((digitsVal t : Int)) else none

/-- Python `float(s)` restricted to optionally signed plain decimal strings
(`ddd`, `ddd.ddd`, `.ddd`, `ddd.`), the only shapes produced by the
extraction pipeline.  The exact decimal value is kept (over `ℚ`). -/
def pyFloatParse (s : Str) : Option ℚ :=
  let core : Str → Option ℚ := fun t =>
    let ip := t.takeWhile isDigitChar
    match t.dropWhile isDigitChar with
    | [] => if ip = [] then none else some ((digitsVal ip : ℚ))
    | '.' :: r2 =>
      let fp := r2.takeWhile isDigitChar
      if r2.dropWhile isDigitChar = [] ∧ (ip ≠ [] ∨ fp ≠ []) then
        some ((digitsVal ip : ℚ) + (digitsVal fp : ℚ) / (10 : ℚ) ^ fp.length)
      else none
    | _ => none
  match pyStrip s with
  | '-' :: rest => (core rest).map (fun q => -q)
  | '+' :: rest => core rest
  | t => core t

/-- Round half to even (Python `round` and the rounding of `format`),
computed on the canonical numerator/denominator: `f` is the floor and
`r2 = 2 * den * (q - f)` compares the fractional part with one half. -/
def roundHalfEven (q : ℚ) : ℤ :=
  let f := Int.fdiv q.num (q.den : ℤ)
  let r2 := 2 * (q.num - f * (q.den : ℤ))
  if r2 < (q.den : ℤ) then f
  else if (q.den : ℤ) < r2 then f + 1
  else if f % 2 = 0 then f else f + 1

/-- Left-pad a digit string with zeros to width `k`. -/
def padZeros (k : Nat) (s : Str) : Str :=
  List.replicate (k - s.length) '0' ++ s

/-- Python `f"{x:.11f}"`: fixed-point with 11 decimal places, modelled over `ℚ`
with round-half-to-even. -/
def formatFixed11 (q : ℚ) : Str :=
  let n := (roundHalfEven (|q| * (10 : ℚ) ^ (11 : Nat))).toNat
  (if q < 0 then ['-'] else []) ++
    natToChars (n / 10 ^ 11) ++ '.' :: padZeros 11 (natToChars (n % 10 ^ 11))

/-- Association-list lookup, Python `dict` access / `dict.get` on the first
matching key (keys are unique by construction in every dict built here). -/
def lookupOpt {κ α : Type} [DecidableEq κ] : List (κ × α) → κ → Option α
  | [], _ => none
  | a :: rest, key => if key = a.1 then some a.2 else lookupOpt rest key

/-- Python `d.get(key, "")` for string-valued dicts. -/
def lookupD {κ : Type} [DecidableEq κ] (d : List (κ × Str)) (key : κ) : Str :=
  (lookupOpt d key).getD []

/-- Python `d[key] = v`: replace the value if the key exists (keeping its
position, as a Python dict does), otherwise append the new entry. -/
def dictInsert {κ : Type} [DecidableEq κ] (d : List (κ × Str)) (k : κ) (v : Str) :
    List (κ × Str) :=
  if (lookupOpt d k).isSome then
    d.map (fun p => if p.1 = k then (p.1, v) else p)
  else d ++ [(k, v)]

/-- First element satisfying a predicate (Python loop with `break`). -/
def findFirst {α : Type} (p : α → Bool) : List α → Option α
  | [] => none
  | x :: rest => if p x then some x else findFirst p rest

/-- Index of the first element satisfying a predicate. -/
def findFirstIdx {α : Type} (p : α → Bool) : List α → Option Nat
  | [] => none
  | x :: rest => if p x then some 0 else (findFirstIdx p rest).map (· + 1)

/-! ## Configuration (class `Config` of map2.py) -/

/-- `Config.FINAL_CSV_COLUMNS`: the fixed ordered output columns. -/
def FINAL_CSV_COLUMNS : List Str :=
  [ strL "USA.OBD.INTERACTIVE.ACCOUNTS.TOTAL.M",
    strL "USA.OBD.INTERACTIVE.ACCOUNTS.NETNEW.M",
    strL "USA.OBD.INTERACTIVE.DARTS.TOTAL.M",
    strL "USA.OBD.INTERACTIVE.DARTS.CLEARED.M",
    strL "USA.OBD.INTERACTIVE.DARTS.CLEAREDAVG.M",
    strL "USA.OBD.INTERACTIVE.TRADING.OPTIONS.M",
    strL "USA.OBD.INTERACTIVE.TRADING.FUTURES.M",
    strL "USA.OBD.INTERACTIVE.TRADING.STOCKSHARES.M",
    strL "USA.OBD.INTERACTIVE.ACCOUNTLEVEL.EQUITY.M",
    strL "USA.OBD.INTERACTIVE.ACCOUNTLEVEL.FDIC.M",
    strL "USA.OBD.INTERACTIVE.ACCOUNTLEVEL.CREDITSATBROKER.M",
    strL "USA.OBD.INTERACTIVE.ACCOUNTLEVEL.CREDITSTOTAL.M",
    strL "USA.OBD.INTERACTIVE.ACCOUNTLEVEL.MARGINLOANS.M",
    strL "USA.OBD.INTERACTIVE.ACCOUNTLEVEL.CASH.M",
    strL "USA.OBD.INTERACTIVE.AVGCOMMISSION.STOCK.M",
    strL "USA.OBD.INTERACTIVE.AVGCOMMISSION.EQUITYOPTIONS.M",
    strL "USA.OBD.INTERACTIVE.AVGCOMMISSION.FUTURES.M",
    strL "USA.OBD.INTERACTIVE.AVGORDER.STOCK.M",
    strL "USA.OBD.INTERACTIVE.AVGORDER.EQUITYOPTIONS.M",
    strL "USA.OBD.INTERACTIVE.AVGORDER.FUTURES.M" ]

/-- `Config.DESCRIPTIVE_HEADERS`: human-readable captions for row 2 of the
CSV artifact. -/
def DESCRIPTIVE_HEADERS : List (Str × Str) :=
  [ (strL "", strL ""),
    (strL "USA.OBD.INTERACTIVE.ACCOUNTS.TOTAL.M",
     strL "From Monthly Metrics:\n Accounts:\n Total Accounts:\n Thousands"),
    (strL "USA.OBD.INTERACTIVE.ACCOUNTS.NETNEW.M",
     strL "From Monthly Metrics:\n Accounts:\n Net New Accounts:\n Thousands"),
    (strL "USA.OBD.INTERACTIVE.DARTS.TOTAL.M",
     strL "From Monthly Metrics:\n DARTs:\n Total Client DARTs:\n Thousands"),
    (strL "USA.OBD.INTERACTIVE.DARTS.CLEARED.M",
     strL "From Monthly Metrics:\n DARTs:\n Cleared Client DARTs:\n Thousands"),
    (strL "USA.OBD.INTERACTIVE.DARTS.CLEAREDAVG.M",
     strL "From Monthly Metrics:\n DARTs:\n Cleared Avg. DART per Account:\n #"),
    (strL "USA.OBD.INTERACTIVE.TRADING.OPTIONS.M",
     strL "From Monthly Metrics:\n Trading Volumes:\n Options Contracts:\n Thousands"),
    (strL "USA.OBD.INTERACTIVE.TRADING.FUTURES.M",
     strL "From Monthly Metrics:\n Trading Volumes:\n Futures Contracts:\n Thousands"),
    (strL "USA.OBD.INTERACTIVE.TRADING.STOCKSHARES.M",
     strL "From Monthly Metrics:\n Trading Volumes:\n Stock Shares:\n Thousands"),
    (strL "USA.OBD.INTERACTIVE.ACCOUNTLEVEL.EQUITY.M",
     strL "From Monthly Metrics:\n Account Levels ($):\n Client Equity:\n $ Bln."),
    (strL "USA.OBD.INTERACTIVE.ACCOUNTLEVEL.FDIC.M",
     strL "From Monthly Metrics:\n Account Levels ($):\n FDIC Program Client Credits:\n $ Bln."),
    (strL "USA.OBD.INTERACTIVE.ACCOUNTLEVEL.CREDITSATBROKER.M",
     strL "From Monthly Metrics:\n Account Levels ($):\n Client Credits Held at Broker:\n $ Bln."),
    (strL "USA.OBD.INTERACTIVE.ACCOUNTLEVEL.CREDITSTOTAL.M",
     strL "From Monthly Metrics:\n Account Levels ($):\n Client Credits (Total):\n $ Bln."),
    (strL "USA.OBD.INTERACTIVE.ACCOUNTLEVEL.MARGINLOANS.M",
     strL "From Monthly Metrics:\n Account Levels ($):\n Client Margin Loans:\n $ Bln."),
    (strL "USA.OBD.INTERACTIVE.ACCOUNTLEVEL.CASH.M",
     strL "From Monthly Metrics:\n Account Levels ($):\n Cash as % of Assets:\n %"),
    (strL "USA.OBD.INTERACTIVE.AVGCOMMISSION.STOCK.M",
     strL "From Press Release:\n Average Commission per Cleared Order:\n Stocks:\n $"),
    (strL "USA.OBD.INTERACTIVE.AVGCOMMISSION.EQUITYOPTIONS.M",
     strL "From Press Release:\n Average Commission per Cleared Order:\n Equity Options:\n $"),
    (strL "USA.OBD.INTERACTIVE.AVGCOMMISSION.FUTURES.M",
     strL "From Press Release:\n Average Commission per Cleared Order:\n Futures:\n $"),
    (strL "USA.OBD.INTERACTIVE.AVGORDER.STOCK.M",
     strL "From Press Release:\n Average Order Size:\n Stocks:\n # shares"),
    (strL "USA.OBD.INTERACTIVE.AVGORDER.EQUITYOPTIONS.M",
     strL "From Press Release:\n Average Order Size:\n Equity Options:\n # contracts"),
    (strL "USA.OBD.INTERACTIVE.AVGORDER.FUTURES.M",
     strL "From Press Release:\n Average Order Size:\n Futures:\n # contracts") ]

/-- A source descriptor of `Config.MAPPING_CONFIG`: either a metric name of
the monthly-brokerage (tabular) engine, or a (product, sub-metric) pair of
the press-release (narrative) engine. -/
inductive SourceCfg : Type where
  | monthly_brokerage (source_name : Str)
  | press_release (product metric : Str)
deriving DecidableEq

/-- `Config.MAPPING_CONFIG`: canonical column → source descriptor. -/
def MAPPING_CONFIG : List (Str × SourceCfg) :=
  [ (strL "USA.OBD.INTERACTIVE.ACCOUNTS.TOTAL.M",
     .monthly_brokerage (strL "Total Accounts")),
    (strL "USA.OBD.INTERACTIVE.ACCOUNTS.NETNEW.M",
     .monthly_brokerage (strL "Net New Accounts")),
    (strL "USA.OBD.INTERACTIVE.DARTS.TOTAL.M",
     .monthly_brokerage (strL "Total Client DARTs")),
    (strL "USA.OBD.INTERACTIVE.DARTS.CLEARED.M",
     .monthly_brokerage (strL "Cleared Client DARTs")),
    (strL "USA.OBD.INTERACTIVE.DARTS.CLEAREDAVG.M",
     .monthly_brokerage (strL "Cleared Avg. DART per Account (Annualized)")),
    (strL "USA.OBD.INTERACTIVE.TRADING.OPTIONS.M",
     .monthly_brokerage (strL "Options Contracts")),
    (strL "USA.OBD.INTERACTIVE.TRADING.FUTURES.M",
     .monthly_brokerage (strL "Futures Contracts")),
    (strL "USA.OBD.INTERACTIVE.TRADING.STOCKSHARES.M",
     .monthly_brokerage (strL "Stock Shares")),
    (strL "USA.OBD.INTERACTIVE.ACCOUNTLEVEL.EQUITY.M",
     .monthly_brokerage (strL "Client Equity")),
    (strL "USA.OBD.INTERACTIVE.ACCOUNTLEVEL.FDIC.M",
     .monthly_brokerage (strL "FDIC Program Client Credits")),
    (strL "USA.OBD.INTERACTIVE.ACCOUNTLEVEL.CREDITSATBROKER.M",
     .monthly_brokerage (strL "Client Credits Held at Broker")),
    (strL "USA.OBD.INTERACTIVE.ACCOUNTLEVEL.CREDITSTOTAL.M",
     .monthly_brokerage (strL "Client Credits")),
    (strL "USA.OBD.INTERACTIVE.ACCOUNTLEVEL.MARGINLOANS.M",
     .monthly_brokerage (strL "Client Margin Loans")),
    (strL "USA.OBD.INTERACTIVE.ACCOUNTLEVEL.CASH.M",
     .monthly_brokerage (strL "Cash as % of Assets")),
    (strL "USA.OBD.INTERACTIVE.AVGCOMMISSION.STOCK.M",
     .press_release (strL "Stocks") (strL "Average Commission")),
    (strL "USA.OBD.INTERACTIVE.AVGCOMMISSION.EQUITYOPTIONS.M",
     .press_release (strL "Equity Options") (strL "Average Commission")),
    (strL "USA.OBD.INTERACTIVE.AVGCOMMISSION.FUTURES.M",
     .press_release (strL "Futures") (strL "Average Commission")),
    (strL "USA.OBD.INTERACTIVE.AVGORDER.STOCK.M",
     .press_release (strL "Stocks") (strL "Average Order Size")),
    (strL "USA.OBD.INTERACTIVE.AVGORDER.EQUITYOPTIONS.M",
     .press_release (strL "Equity Options") (strL "Average Order Size")),
    (strL "USA.OBD.INTERACTIVE.AVGORDER.FUTURES.M",
     .press_release (strL "Futures") (strL "Average Order Size")) ]

/-- `Config.MONTH_MAPPING`: month number → abbreviation. -/
def MONTH_MAPPING : List (Nat × Str) :=
  [ (1, strL "Jan"), (2, strL "Feb"), (3, strL "Mar"), (4, strL "Apr"),
    (5, strL "May"), (6, strL "Jun"), (7, strL "Jul"), (8, strL "Aug"),
    (9, strL "Sep"), (10, strL "Oct"), (11, strL "Nov"), (12, strL "Dec") ]

/-- `Config.VALID_MONTHS = list(MONTH_MAPPING.values())`. -/
def VALID_MONTHS : List Str := MONTH_MAPPING.map (·.2)

/-- The monthly-brokerage source names, in `MAPPING_CONFIG` iteration order
(`[v['source_name'] for v in MAPPING_CONFIG.values() if source ==
'monthly_brokerage']`). -/
def monthlySourceNames : List Str :=
  MAPPING_CONFIG.filterMap (fun p =>
    match p.2 with
    | .monthly_brokerage n => some n
    | .press_release _ _ => none)

/-! ## Document model (the pdfplumber access adapter) -/

/-- A positioned word: `{text, x0, top}` as exposed by `extract_words`. -/
structure PDFWord : Type where
  text : Str
  x0 : ℚ
  top : ℚ
deriving DecidableEq

/-- One page: extracted text (possibly absent), positioned words and
detected tables (rows of nullable cell strings). -/
structure PDFPage : Type where
  text : Option Str
  words : List PDFWord
  tables : List (List (List (Option Str)))
deriving DecidableEq

/-- An opened document: an ordered sequence of pages. -/
structure PDFDoc : Type where
  pages : List PDFPage
deriving DecidableEq

/-- A parse result: either a terminal `{"Error": msg}` sentinel or a data
mapping (the strategies return one or the other, never a mixture). -/
inductive PyResult (α : Type) : Type where
  | error (msg : Str)
  | data (val : α)
deriving DecidableEq

/-- Result of the tabular engine: metric name → cleaned value. -/
abbrev BrokResult : Type := PyResult (List (Str × Str))

/-- Result of the narrative engine: product → sub-metric mapping. -/
abbrev PressResult : Type := PyResult (List (Str × List (Str × Str)))

/-- Whether a result is the terminal error sentinel (`"Error" in result`). -/
def isErr {α : Type} : PyResult α → Bool
  | .error _ => true
  | .data _ => false

/-- Number of populated metrics of a tabular result (`len(result)`;
an error sentinel counts as 0 metrics). -/
def metricCount : BrokResult → Nat
  | .error _ => 0
  | .data m => m.length

/-! ## Utility functions of map2.py -/

/-- `clean_numeric_value`: remove `$` and `,` (regex `[$,]`), then strip.
An empty input yields the empty string, as in the source. -/
def clean_numeric_value (v : Str) : Str :=
  if v = [] then [] else pyStrip (stripCharsOf ['$', ','] v)

/-- `validate_date_params(year, month_num)`: `none` means valid, `some msg`
carries the error message.  The year arrives as a decimal string (the
source converts it with `int`); the month is already an integer. -/
def validate_date_params (year : Str) (month : Nat) : Option Str :=
  match pyIntParse year with
  | none => some (strL "Year and month must be valid integers")
  | some y =>
    if ¬ (2015 ≤ y ∧ y ≤ 2030) then
      some (strL "Year must be between 2015 and 2030")
    else if ¬ (1 ≤ month ∧ month ≤ 12) then
      some (strL "Month must be between 1 and 12")
    else none

/-- One token step of `re.findall(r'[\d,]+\.?\d*', line)`: the maximal
`[\d,]` run, an optional dot, then a maximal digit run. -/
def numericTokenAt (s : Str) : Str × Str :=
  let g1 := s.takeWhile isDigitComma
  match s.dropWhile isDigitComma with
  | '.' :: r2 => (g1 ++ '.' :: r2.takeWhile isDigitChar, r2.dropWhile isDigitChar)
  | r1 => (g1, r1)

/-- Fuelled scanner for `re.findall(r'[\d,]+\.?\d*', line)`; every step
consumes at least one character, so `fuel = length` suffices. -/
def findNumericTokensF : Nat → Str → List Str
  | 0, _ => []
  | _ + 1, [] => []
  | fuel + 1, c :: rest =>
    if isDigitComma c then
      let p := numericTokenAt (c :: rest)
      p.1 :: findNumericTokensF fuel p.2
    else findNumericTokensF fuel rest

/-- `re.findall(r'[\d,]+\.?\d*', line)`: all non-overlapping numeric
tokens, scanning left to right. -/
def findNumericTokens (s : Str) : List Str := findNumericTokensF s.length s

/-- `detect_latest_month_from_data(text, year)`: locate the month header
line (the first line containing `Jan`, `Feb`, `Mar` and `Aug`), then take
the first later-scanned line that contains no `Jan`/`Feb`/`Mar`, contains a
digit, and has at least 8 numeric tokens; the inferred month is the token
count capped at 12 (`month_order[:len(numeric_parts)]`, last entry).  The
`year` argument is unused by the source as well. -/
def detect_latest_month_from_data (text : Str) (_year : Nat) : Option Nat :=
  let lines := splitLines text
  match findFirst (fun l =>
      hasSubstr l (strL "Jan") && hasSubstr l (strL "Feb") &&
      hasSubstr l (strL "Mar") && hasSubstr l (strL "Aug")) lines with
  | none => none
  | some _ =>
    match findFirst (fun l =>
        !(hasSubstr l (strL "Jan") || hasSubstr l (strL "Feb") ||
          hasSubstr l (strL "Mar")) &&
        l.any isDigitChar &&
        decide (8 ≤ (findNumericTokens l).length)) lines with
    | none => none
    | some l => some (min (findNumericTokens l).length 12)

/-! ## Strategy A: `_parse_using_text_extraction` -/

/-- Concatenated page texts (`full_text += page_text + "\n"` for every page
whose extracted text is truthy). -/
def fullTextOf (doc : PDFDoc) : Str :=
  doc.pages.foldl (fun acc p =>
    match p.text with
    | some t => if t = [] then acc else acc ++ t ++ ['\n']
    | none => acc) []

/-- Suffix following the first occurrence of `pat` (already lowercased on
both sides by the caller). -/
def firstOccSuffix (pat : Str) : Str → Option Str
  | [] => if startsWithL pat [] then some [] else none
  | c :: rest =>
    if startsWithL pat (c :: rest) then some ((c :: rest).drop pat.length)
    else firstOccSuffix pat rest

/-- Boolean value of `re.search(name + r'[^\d]*(\d...)', line, IGNORECASE)`
for the ordinary metric patterns of the Strategy A catalogue: such a
pattern matches iff some occurrence of the (case-folded) name is followed,
anywhere later in the line, by a digit — the `[^\d]*` absorbs exactly the
characters up to the first later digit.  A later occurrence of the name is
followed by a digit only if the first one is, so testing the first
occurrence is equivalent. -/
def nameThenDigitHit (name line : Str) : Bool :=
  match firstOccSuffix (pyLower name) (pyLower line) with
  | some suffix => suffix.any isDigitChar
  | none => false

/-- Boolean value of `re.search(r'Client Credits\(\d+\)[^\d]*\$?(\d...)',
line, IGNORECASE)`: some occurrence of `client credits(` followed by one or
more digits, a closing parenthesis, and a later digit. -/
def creditsFootnoteHitAux : Str → Bool
  | [] => false
  | c :: rest =>
    (if startsWithL (strL "client credits(") (c :: rest) then
      (let t := (c :: rest).drop (strL "client credits(").length
       match t.takeWhile isDigitChar, t.dropWhile isDigitChar with
       | _ :: _, ')' :: r2 => r2.any isDigitChar
       | _, _ => false)
     else false) || creditsFootnoteHitAux rest

/-- See `creditsFootnoteHitAux`; the line is case-folded first. -/
def creditsFootnoteHit (line : Str) : Bool :=
  creditsFootnoteHitAux (pyLower line)

/-- The Strategy A `metric_patterns` catalogue, in dict insertion order.
Every pattern is the metric name followed by `[^\d]*` and a numeric group,
except `Client Credits`, whose pattern carries a `\(\d+\)` footnote marker. -/
def metric_pattern_names : List Str :=
  [ strL "Total Accounts", strL "Net New Accounts", strL "Total Client DARTs",
    strL "Cleared Client DARTs", strL "Options Contracts",
    strL "Futures Contracts", strL "Stock Shares", strL "Client Equity",
    strL "FDIC Program Client Credits", strL "Client Credits Held at Broker",
    strL "Client Credits", strL "Client Margin Loans",
    strL "Cash as % of Assets" ]

/-- Whether the catalogue pattern of `name` matches `line`. -/
def metricPatternHit (name line : Str) : Bool :=
  if name = strL "Client Credits" then creditsFootnoteHit line
  else nameThenDigitHit name line

/-- `re.match(r'^[\$]?[\d,]+\.?\d*$', part)` as a Boolean shape test. -/
def numericTokenShapeA (p : Str) : Bool :=
  let p1 := match p with | '$' :: r => r | r => r
  (p1.takeWhile isDigitComma ≠ []) &&
    (match p1.dropWhile isDigitComma with
     | [] => true
     | '.' :: r2 => r2.all isDigitChar
     | _ => false)

/-- Whitespace tokens of a line that pass the numeric shape test, with `$`
and `,` removed (`part.replace('$','').replace(',','')`). -/
def numericPartsOfLine (line : Str) : List Str :=
  (pySplitWs line).filterMap (fun part =>
    if numericTokenShapeA part then some (stripCharsOf ['$', ','] part)
    else none)

/-- The `month_to_index` dict of Strategy A (Jan=0 … Dec=11). -/
def month_to_index : List (Str × Nat) :=
  [ (strL "Jan", 0), (strL "Feb", 1), (strL "Mar", 2), (strL "Apr", 3),
    (strL "May", 4), (strL "Jun", 5), (strL "Jul", 6), (strL "Aug", 7),
    (strL "Sep", 8), (strL "Oct", 9), (strL "Nov", 10), (strL "Dec", 11) ]

/-- The long metric name populated by Strategy A's dedicated second pass. -/
def dartAnnualizedName : Str :=
  strL "Cleared Avg. DART per Account (Annualized)"

/-- Process one window line of Strategy A: build the (possibly
concatenated) line, try every catalogue pattern (skipping metrics already
found), then run the dedicated DART-per-account second pass. -/
def stratAProcessLine (lines : List Str) (idx : Nat)
    (acc : List (Str × Str)) (i : Nat) : List (Str × Str) :=
  let line := pyStrip (lines.getD i [])
  if line = [] then acc
  else
    let combined :=
      if i + 1 < lines.length then
        (let nxt := pyStrip (lines.getD (i + 1) [])
         if nxt ≠ [] ∧ (hasSubstr nxt (strL "Annualized") = true ∨
             (pySplitWs line).length < 3) then
           line ++ ' ' :: nxt
         else line)
      else line
    let acc1 := metric_pattern_names.foldl (fun a name =>
      if (lookupOpt a name).isSome then a
      else if metricPatternHit name combined then
        (let nums := numericPartsOfLine combined
         if idx < nums.length then
           (let v := clean_numeric_value (nums.getD idx [])
            if v = [] then a else dictInsert a name v)
         else a)
      else a) acc
    if (hasSubstr line (strL "Cleared Avg. DART per Account") ||
        hasSubstr line (strL "Annualized")) &&
       (lookupOpt acc1 dartAnnualizedName).isNone then
      (let nums := numericPartsOfLine combined
       if idx < nums.length then
         (let v := clean_numeric_value (nums.getD idx [])
          if v = [] then acc1 else dictInsert acc1 dartAnnualizedName v)
       else acc1)
    else acc1

/-- The bounded extraction window of Strategy A:
`range(header_line_idx + 1, min(header_line_idx + 25, len(lines)))`. -/
def stratAWindow (lines : List Str) (hIdx idx : Nat) : List (Str × Str) :=
  (List.range' (hIdx + 1) (min (hIdx + 25) lines.length - (hIdx + 1))).foldl
    (stratAProcessLine lines idx) []

/-- `_parse_using_text_extraction`: Strategy A. -/
def parse_using_text_extraction (doc : PDFDoc) (target_year : Str)
    (target_month_abbr : Str) : BrokResult :=
  let full_text := fullTextOf doc
  if pyStrip full_text = [] then .error (strL "No text extracted from PDF")
  else if ¬ hasSubstr full_text target_year then
    .error (strL "Target year " ++ target_year ++ strL " not found in PDF")
  else
    let lines := splitLines full_text
    match findFirstIdx (fun l =>
        hasSubstr l (strL "Jan") && hasSubstr l (strL "Feb") &&
        hasSubstr l (strL "Mar") && hasSubstr l target_month_abbr) lines with
    | none => .error (strL "Could not find header line with " ++ target_month_abbr)
    | some hIdx =>
      let header_parts := pySplitWs (lines.getD hIdx [])
      let month_positions := header_parts.enum.filterMap (fun pr =>
        (findFirst (fun m => hasSubstr pr.2 m) VALID_MONTHS).map
          (fun m => (m, pr.1)))
      if ¬ month_positions.any (fun mp => decide (mp.1 = target_month_abbr)) then
        .error (strL "Could not locate " ++ target_month_abbr ++ strL " in header")
      else
        match lookupOpt month_to_index target_month_abbr with
        | none => .error (strL "Unsupported month: " ++ target_month_abbr)
        | some idx => .data (stratAWindow lines hIdx idx)

/-! ## Strategy B: `_parse_using_coordinates` -/

/-- Stable insertion keeping earlier-listed words first among equal `x0`
(Python's `sort` is stable). -/
def insertByX0 (w : PDFWord) : List PDFWord → List PDFWord
  | [] => [w]
  | h :: t => if h.x0 ≤ w.x0 then h :: insertByX0 w t else w :: h :: t

/-- `month_headers.sort(key=lambda w: w['x0'])`. -/
def sortByX0 (l : List PDFWord) : List PDFWord :=
  l.foldl (fun acc w => insertByX0 w acc) []

/-- Column boundaries for the target month: the first header word whose
text equals the abbreviation gives `x0 - 8`; the following header (if any)
gives the exclusive right edge `x0 - 8`, otherwise the band is unbounded
(`float('inf')`, modelled as `none`). -/
def findColBounds (abbr : Str) : List PDFWord → Option (ℚ × Option ℚ)
  | [] => none
  | h :: t =>
    if h.text = abbr then some (h.x0 - 8, t.head?.map (fun n => n.x0 - 8))
    else findColBounds abbr t

/-- `re.compile(r'^[$\d,.]+$')`. -/
def numericTokenShapeB (t : Str) : Bool :=
  t ≠ [] && t.all (fun c => c = '$' || isDigitChar c || c = ',' || c = '.')

/-- Row bucket of a word: `round(w['top'] / 3) * 3`. -/
def rowKey (w : PDFWord) : ℤ := roundHalfEven (w.top / 3) * 3

/-- Group words into rows by `rowKey`, keys in first-appearance order and
words in original order inside each row (Python dict + append). -/
def groupRows (ws : List PDFWord) : List (ℤ × List PDFWord) :=
  ws.foldl (fun acc w =>
    if acc.any (fun p => decide (p.1 = rowKey w)) then
      acc.map (fun p => if p.1 = rowKey w then (p.1, p.2 ++ [w]) else p)
    else acc ++ [(rowKey w, [w])]) []

/-- Whether `x0` lies in the target band `target_col_start <= x0 < end`. -/
def inBand (x : ℚ) (cs : ℚ) (ce : Option ℚ) : Bool :=
  decide (cs ≤ x) && (match ce with | none => true | some e => decide (x < e))

/-- Row pass of Strategy B: if the row text mentions a significant word
(length > 3) of a known metric name, take the first numeric-shaped word in
the target band as that metric's value. -/
def stratBRow (cs : ℚ) (ce : Option ℚ) (acc : List (Str × Str))
    (rws : List PDFWord) : List (Str × Str) :=
  let rowText := pyLower (joinSpace (rws.map PDFWord.text))
  monthlySourceNames.foldl (fun a name =>
    let mwords := pySplitWs (pyLower name)
    if mwords.any (fun w => decide (3 < w.length) && hasSubstr rowText w) then
      match rws.filter (fun w =>
          numericTokenShapeB w.text && inBand w.x0 cs ce) with
      | [] => a
      | w :: _ =>
        (let v := clean_numeric_value w.text
         if v = [] then a else dictInsert a name v)
    else a) acc

/-- `_parse_using_coordinates`: Strategy B.  The source reads
`pdf.pages[0]`; on an empty page list the raised `IndexError` is caught by
the strategy's `except` and converted to a result-level error. -/
def parse_using_coordinates (doc : PDFDoc) (target_year : Str)
    (target_month_abbr : Str) : BrokResult :=
  match doc.pages with
  | [] => .error (strL "Coordinate extraction failed: list index out of range")
  | page :: _ =>
    let words := page.words
    if words = [] then .error (strL "No words extracted from PDF")
    else
      match findFirst (fun w => hasSubstr w.text target_year) words with
      | none =>
        .error (strL "Year " ++ target_year ++ strL " not found in word coordinates")
      | some yw =>
        let month_headers := sortByX0 (words.filter (fun w =>
          decide (w.text ∈ VALID_MONTHS) && decide (yw.top - 15 < w.top)))
        if month_headers.length < 3 then
          .error (strL "Insufficient month headers found: " ++
            natToChars month_headers.length)
        else
          match findColBounds target_month_abbr month_headers with
          | none =>
            .error (strL "Could not find column boundaries for " ++
              target_month_abbr)
          | some (cs, ce) =>
            .data ((groupRows words).foldl
              (fun acc row => stratBRow cs ce acc row.2) [])

/-! ## Strategy C: `_parse_using_table_extraction` -/

/-- Truthy cell content: a present, non-empty string (`if cell`). -/
def cellTruthy : Option Str → Option Str
  | some s => if s = [] then none else some s
  | none => none

/-- Header-row test: some truthy cell contains a month abbreviation. -/
def isMonthRow (row : List (Option Str)) : Bool :=
  row.any (fun c =>
    match cellTruthy c with
    | some s => VALID_MONTHS.any (fun m => hasSubstr s m)
    | none => false)

/-- Find the header row and the column where the target abbreviation
literally appears in a truthy cell of that row; `none` when either is
missing (the table is then skipped). -/
def findHeaderCol (abbr : Str) (table : List (List (Option Str))) :
    Option (Nat × Nat) :=
  match findFirstIdx isMonthRow table with
  | none => none
  | some h =>
    match findFirstIdx (fun c =>
        match cellTruthy c with
        | some s => hasSubstr s abbr
        | none => false) (table.getD h []) with
    | none => none
    | some col => some (h, col)

/-- `re.match(r'^\d+\.?\d*$', clean_value)`. -/
def numericTokenShapeC (p : Str) : Bool :=
  (p.takeWhile isDigitChar ≠ []) &&
    (match p.dropWhile isDigitChar with
     | [] => true
     | '.' :: r2 => r2.all isDigitChar
     | _ => false)

/-- One data row of Strategy C: match the first cell against the known
metric names by significant words, and accept the target-column cell when
it normalizes to a purely numeric token. -/
def stratCRow (col : Nat) (acc : List (Str × Str)) (row : List (Option Str)) :
    List (Str × Str) :=
  if row = [] ∨ row.length ≤ col then acc
  else
    let metricCell := (cellTruthy (row.getD 0 none)).getD []
    let valueCell := (cellTruthy (row.getD col none)).getD []
    if metricCell = [] ∨ valueCell = [] then acc
    else
      monthlySourceNames.foldl (fun a name =>
        if (pySplitWs name).any (fun w =>
            decide (3 < w.length) &&
            hasSubstr (pyLower metricCell) (pyLower w)) then
          (let cv := clean_numeric_value valueCell
           if cv ≠ [] ∧ numericTokenShapeC cv = true then dictInsert a name cv
           else a)
        else a) acc

/-- One table of Strategy C: skipped when shorter than 2 rows or when the
header/target column cannot be resolved. -/
def stratCTable (abbr : Str) (acc : List (Str × Str))
    (table : List (List (Option Str))) : List (Str × Str) :=
  if table.length < 2 then acc
  else
    match findHeaderCol abbr table with
    | none => acc
    | some (h, col) => (table.drop (h + 1)).foldl (stratCRow col) acc

/-- `_parse_using_table_extraction`: Strategy C (same `pages[0]` remark as
Strategy B). -/
def parse_using_table_extraction (doc : PDFDoc) (_target_year : Str)
    (target_month_abbr : Str) : BrokResult :=
  match doc.pages with
  | [] => .error (strL "Table extraction failed: list index out of range")
  | page :: _ =>
    if page.tables = [] then .error (strL "No tables found in PDF")
    else .data (page.tables.foldl (stratCTable target_month_abbr) [])

/-! ## The strategy cascade: `parse_monthly_brokerage_data` -/

/-- `result and "Error" not in result and len(result) >= 5`: the
sufficiency test applied to Strategies A and B. -/
def sufficientResult : BrokResult → Bool
  | .error _ => false
  | .data m => decide (m ≠ []) && decide (5 ≤ m.length)

/-- `result and "Error" not in result`: the acceptance test applied to
Strategy C (non-error and, through Python truthiness, non-empty). -/
def acceptableThird : BrokResult → Bool
  | .error _ => false
  | .data m => decide (m ≠ [])

/-- The fixed terminal message of the exhausted cascade. -/
def allStrategiesFailedMsg : Str :=
  strL "All parsing strategies failed to extract sufficient data"

/-- The early-return selection logic of `parse_monthly_brokerage_data`
over the three strategy results. -/
def selectStrategyResults (r1 r2 r3 : BrokResult) : BrokResult :=
  if sufficientResult r1 then r1
  else if sufficientResult r2 then r2
  else if acceptableThird r3 then r3
  else .error allStrategiesFailedMsg

/-- `parse_monthly_brokerage_data(pdf_path, target_year, target_month_num)`:
month-number lookup, parameter validation, empty-document check, then the
three strategies in priority order.  The Java-wrapper unwrapping step only
changes which bytes are opened and is transparent to this model (the
document is the input). -/
def parse_monthly_brokerage_data (doc : PDFDoc) (target_year : Str)
    (target_month_num : Nat) : BrokResult :=
  match lookupOpt MONTH_MAPPING target_month_num with
  | none =>
    .error (strL "Invalid target month number: " ++ natToChars target_month_num)
  | some abbr =>
    match validate_date_params target_year target_month_num with
    | some msg => .error msg
    | none =>
      if doc.pages = [] then .error (strL "PDF has no pages")
      else
        selectStrategyResults
          (parse_using_text_extraction doc target_year abbr)
          (parse_using_coordinates doc target_year abbr)
          (parse_using_table_extraction doc target_year abbr)

/-! ## Narrative engine: `parse_press_release`

The six regular expressions are hand-compiled: in each of them the
character classes and the literal that follows them are disjoint, so the
maximal-munch scan below computes exactly the (leftmost) `re.search`
match with `re.IGNORECASE` (`re.MULTILINE` is irrelevant, the patterns are
unanchored). -/

/-- Case-insensitive literal prefix. -/
def ciStartsWith (lit s : Str) : Bool :=
  startsWithL (pyLower lit) (pyLower s)

/-- Try a matcher at every start position, leftmost first (`re.search`). -/
def searchAt {α : Type} (f : Str → Option α) : Str → Option α
  | [] => f []
  | c :: rest =>
    match f (c :: rest) with
    | some r => some r
    | none => searchAt f rest

/-- Maximal `\d+\.?\d*` at the head of `s`; `([], s)` when no digit leads. -/
def numCoreAt (s : Str) : Str × Str :=
  let d0 := s.takeWhile isDigitChar
  if d0 = [] then ([], s)
  else
    match s.dropWhile isDigitChar with
    | '.' :: r2 => (d0 ++ '.' :: r2.takeWhile isDigitChar, r2.dropWhile isDigitChar)
    | r1 => (d0, r1)

/-- Maximal `(?:,\d+)*` continuation (fuelled; each step consumes at least
two characters, so `fuel = length` suffices). -/
def digitGroupsF : Nat → Str → Str × Str
  | 0, s => ([], s)
  | _ + 1, [] => ([], [])
  | fuel + 1, ',' :: rest =>
    (match rest.takeWhile isDigitChar with
     | [] => ([], ',' :: rest)
     | d =>
       let p := digitGroupsF fuel (rest.dropWhile isDigitChar)
       (',' :: (d ++ p.1), p.2))
  | _ + 1, s => ([], s)

/-- `Stocks\s+([\d,]+\s+shares)\s+\$([\d.]+)` tried at one position; group 1
is the matched slice (digits, the whitespace run and the unit word as they
occur in the text). -/
def primaryStocksAt (s : Str) : Option (Str × Str) :=
  if ciStartsWith (strL "Stocks") s then
    (let s1 := s.drop 6
     let w1 := s1.takeWhile pyIsSpace
     let s2 := s1.dropWhile pyIsSpace
     if w1 = [] then none
     else
       let d1 := s2.takeWhile isDigitComma
       let s3 := s2.dropWhile isDigitComma
       if d1 = [] then none
       else
         let w2 := s3.takeWhile pyIsSpace
         let s4 := s3.dropWhile pyIsSpace
         if w2 = [] then none
         else if ciStartsWith (strL "shares") s4 then
           (let unitTxt := s4.take 6
            let s5 := s4.drop 6
            let w3 := s5.takeWhile pyIsSpace
            let s6 := s5.dropWhile pyIsSpace
            if w3 = [] then none
            else
              match s6 with
              | '$' :: s7 =>
                (let d2 := s7.takeWhile isDigitDot
                 if d2 = [] then none else some (d1 ++ w2 ++ unitTxt, d2))
              | _ => none)
         else none)
  else none

/-- `Equity\s+Options\s+([\d.]+\s+contracts)\s+\$([\d.]+)` at one position. -/
def primaryEquityOptionsAt (s : Str) : Option (Str × Str) :=
  if ciStartsWith (strL "Equity") s then
    (let s1 := s.drop 6
     let w1 := s1.takeWhile pyIsSpace
     let s2 := s1.dropWhile pyIsSpace
     if w1 = [] then none
     else if ciStartsWith (strL "Options") s2 then
       (let s3 := s2.drop 7
        let w2 := s3.takeWhile pyIsSpace
        let s4 := s3.dropWhile pyIsSpace
        if w2 = [] then none
        else
          let d1 := s4.takeWhile isDigitDot
          let s5 := s4.dropWhile isDigitDot
          if d1 = [] then none
          else
            let w3 := s5.takeWhile pyIsSpace
            let s6 := s5.dropWhile pyIsSpace
            if w3 = [] then none
            else if ciStartsWith (strL "contracts") s6 then
              (let unitTxt := s6.take 9
               let s7 := s6.drop 9
               let w4 := s7.takeWhile pyIsSpace
               let s8 := s7.dropWhile pyIsSpace
               if w4 = [] then none
               else
                 match s8 with
                 | '$' :: s9 =>
                   (let d2 := s9.takeWhile isDigitDot
                    if d2 = [] then none else some (d1 ++ w3 ++ unitTxt, d2))
                 | _ => none)
            else none)
     else none)
  else none

/-- `Futures\s+and\s+Future\s+Options\s+([\d.]+\s+contracts)\s+\$([\d.]+)`
at one position. -/
def primaryFuturesAt (s : Str) : Option (Str × Str) :=
  if ciStartsWith (strL "Futures") s then
    (let s1 := s.drop 7
     let w1 := s1.takeWhile pyIsSpace
     let s2 := s1.dropWhile pyIsSpace
     if w1 = [] then none
     else if ciStartsWith (strL "and") s2 then
       (let s3 := s2.drop 3
        let w2 := s3.takeWhile pyIsSpace
        let s4 := s3.dropWhile pyIsSpace
        if w2 = [] then none
        else if ciStartsWith (strL "Future") s4 then
          (let s5 := s4.drop 6
           let w3 := s5.takeWhile pyIsSpace
           let s6 := s5.dropWhile pyIsSpace
           if w3 = [] then none
           else if ciStartsWith (strL "Options") s6 then
             (let s7 := s6.drop 7
              let w4 := s7.takeWhile pyIsSpace
              let s8 := s7.dropWhile pyIsSpace
              if w4 = [] then none
              else
                let d1 := s8.takeWhile isDigitDot
                let s9 := s8.dropWhile isDigitDot
                if d1 = [] then none
                else
                  let w5 := s9.takeWhile pyIsSpace
                  let s10 := s9.dropWhile pyIsSpace
                  if w5 = [] then none
                  else if ciStartsWith (strL "contracts") s10 then
                    (let unitTxt := s10.take 9
                     let s11 := s10.drop 9
                     let w6 := s11.takeWhile pyIsSpace
                     let s12 := s11.dropWhile pyIsSpace
                     if w6 = [] then none
                     else
                       match s12 with
                       | '$' :: s13 =>
                         (let d2 := s13.takeWhile isDigitDot
                          if d2 = [] then none
                          else some (d1 ++ w5 ++ unitTxt, d2))
                       | _ => none)
                  else none)
           else none)
        else none)
     else none)
  else none

/-- `Stocks\s+(\d+(?:,\d+)*)\s+shares\s+\$(\d+\.?\d*)` at one position. -/
def backupStocksAt (s : Str) : Option (Str × Str) :=
  if ciStartsWith (strL "Stocks") s then
    (let s1 := s.drop 6
     let w1 := s1.takeWhile pyIsSpace
     let s2 := s1.dropWhile pyIsSpace
     if w1 = [] then none
     else
       let d0 := s2.takeWhile isDigitChar
       if d0 = [] then none
       else
         let s3 := s2.dropWhile isDigitChar
         let g := digitGroupsF s3.length s3
         let s4 := g.2
         let w2 := s4.takeWhile pyIsSpace
         let s5 := s4.dropWhile pyIsSpace
         if w2 = [] then none
         else if ciStartsWith (strL "shares") s5 then
           (let s6 := s5.drop 6
            let w3 := s6.takeWhile pyIsSpace
            let s7 := s6.dropWhile pyIsSpace
            if w3 = [] then none
            else
              match s7 with
              | '$' :: s8 =>
                (let c := numCoreAt s8
                 if c.1 = [] then none else some (d0 ++ g.1, c.1))
              | _ => none)
         else none)
  else none

/-- `Equity\s+Options\s+(\d+\.?\d*)\s+contracts\s+\$(\d+\.?\d*)` at one
position. -/
def backupEquityOptionsAt (s : Str) : Option (Str × Str) :=
  if ciStartsWith (strL "Equity") s then
    (let s1 := s.drop 6
     let w1 := s1.takeWhile pyIsSpace
     let s2 := s1.dropWhile pyIsSpace
     if w1 = [] then none
     else if ciStartsWith (strL "Options") s2 then
       (let s3 := s2.drop 7
        let w2 := s3.takeWhile pyIsSpace
        let s4 := s3.dropWhile pyIsSpace
        if w2 = [] then none
        else
          let c1 := numCoreAt s4
          if c1.1 = [] then none
          else
            let w3 := c1.2.takeWhile pyIsSpace
            let s5 := c1.2.dropWhile pyIsSpace
            if w3 = [] then none
            else if ciStartsWith (strL "contracts") s5 then
              (let s6 := s5.drop 9
               let w4 := s6.takeWhile pyIsSpace
               let s7 := s6.dropWhile pyIsSpace
               if w4 = [] then none
               else
                 match s7 with
                 | '$' :: s8 =>
                   (let c2 := numCoreAt s8
                    if c2.1 = [] then none else some (c1.1, c2.1))
                 | _ => none)
            else none)
     else none)
  else none

/-- `Futures\s+(\d+\.?\d*)\s+contracts\s+\$(\d+\.?\d*)` at one position. -/
def backupFuturesAt (s : Str) : Option (Str × Str) :=
  if ciStartsWith (strL "Futures") s then
    (let s1 := s.drop 7
     let w1 := s1.takeWhile pyIsSpace
     let s2 := s1.dropWhile pyIsSpace
     if w1 = [] then none
     else
       let c1 := numCoreAt s2
       if c1.1 = [] then none
       else
         let w2 := c1.2.takeWhile pyIsSpace
         let s3 := c1.2.dropWhile pyIsSpace
         if w2 = [] then none
         else if ciStartsWith (strL "contracts") s3 then
           (let s4 := s3.drop 9
            let w3 := s4.takeWhile pyIsSpace
            let s5 := s4.dropWhile pyIsSpace
            if w3 = [] then none
            else
              match s5 with
              | '$' :: s6 =>
                (let c2 := numCoreAt s6
                 if c2.1 = [] then none else some (c1.1, c2.1))
              | _ => none)
         else none)
  else none

/-- The three fixed products, in `primary_patterns` insertion order. -/
def pressProducts : List Str :=
  [strL "Stocks", strL "Equity Options", strL "Futures"]

/-- `re.search` of the primary (narrative-format) pattern of a product. -/
def primarySearch (product text : Str) : Option (Str × Str) :=
  if product = strL "Stocks" then searchAt primaryStocksAt text
  else if product = strL "Equity Options" then
    searchAt primaryEquityOptionsAt text
  else if product = strL "Futures" then searchAt primaryFuturesAt text
  else none

/-- `re.search` of the backup (table-format) pattern of a product. -/
def backupSearch (product text : Str) : Option (Str × Str) :=
  if product = strL "Stocks" then searchAt backupStocksAt text
  else if product = strL "Equity Options" then
    searchAt backupEquityOptionsAt text
  else if product = strL "Futures" then searchAt backupFuturesAt text
  else none

/-- Primary-pattern value entry: unit words, grouping commas and
surrounding whitespace stripped from group 1, group 2 stripped. -/
def primaryEntry (g1 g2 : Str) : List (Str × Str) :=
  [ (strL "Average Order Size",
     pyStrip (stripCharsOf [','] (replaceAll
       (replaceAll g1 (strL " shares") []) (strL " contracts") []))),
    (strL "Average Commission", pyStrip g2) ]

/-- Backup-pattern value entry: commas stripped from group 1. -/
def backupEntry (g1 g2 : Str) : List (Str × Str) :=
  [ (strL "Average Order Size", stripCharsOf [','] g1),
    (strL "Average Commission", g2) ]

/-- One pattern-set pass over the products: a product already present in
`data` is skipped (`if product not in data`). -/
def pressPass (text : Str) (useBackup : Bool)
    (acc : List (Str × List (Str × Str))) : List (Str × List (Str × Str)) :=
  pressProducts.foldl (fun d product =>
    if (lookupOpt d product).isSome then d
    else
      match
        (if useBackup then backupSearch product text
         else primarySearch product text) with
      | some g =>
        d ++ [(product, if useBackup then backupEntry g.1 g.2
                        else primaryEntry g.1 g.2)]
      | none => d) acc

/-- Both pattern-set passes: primary first, then backup. -/
def pressExtract (text : Str) : List (Str × List (Str × Str)) :=
  pressPass text true (pressPass text false [])

/-- `parse_press_release` on the joined report text (the document opening
and Java-wrapper handling only produce this text).  An empty extraction is
returned as an empty data mapping, not as an error. -/
def parse_press_release (report_text : Str) : PressResult :=
  if pyStrip report_text = [] then
    .error (strL "No text extracted from press release PDF")
  else .data (pressExtract report_text)

/-! ## Schema mapper and output (`DataProcessor`) -/

/-- Canonical column names used by the derived-field computation. -/
def colCREDITSTOTAL : Str := strL "USA.OBD.INTERACTIVE.ACCOUNTLEVEL.CREDITSTOTAL.M"

/-- Client-equity canonical column. -/
def colEQUITY : Str := strL "USA.OBD.INTERACTIVE.ACCOUNTLEVEL.EQUITY.M"

/-- Cash-percentage canonical column. -/
def colCASH : Str := strL "USA.OBD.INTERACTIVE.ACCOUNTLEVEL.CASH.M"

/-- Direct-mapping value of one canonical column from the two engine
mappings (the body of the `for csv_header in FINAL_CSV_COLUMNS` loop). -/
def fieldValue (brok : List (Str × Str)) (press : List (Str × List (Str × Str)))
    (col : Str) : Str :=
  match lookupOpt MAPPING_CONFIG col with
  | some (.monthly_brokerage src) => lookupD brok src
  | some (.press_release product metric) =>
    lookupD ((lookupOpt press product).getD []) metric
  | none => []

/-- The direct mapping pass: every canonical column, in order. -/
def mapFields (brok : List (Str × Str))
    (press : List (Str × List (Str × Str))) : List (Str × Str) :=
  FINAL_CSV_COLUMNS.map (fun col => (col, fieldValue brok press col))

/-- The derived cash-percentage step: computed and stored only when both
inputs are non-empty, parse as numbers, and the denominator is positive;
otherwise the mapping is returned unchanged. -/
def applyCashCalc (m : List (Str × Str)) : List (Str × Str) :=
  let credits := lookupD m colCREDITSTOTAL
  let equity := lookupD m colEQUITY
  if credits ≠ [] ∧ equity ≠ [] then
    match pyFloatParse (stripCharsOf [','] credits),
        pyFloatParse (stripCharsOf [','] equity) with
    | some cv, some ev =>
      if 0 < ev then dictInsert m colCASH (formatFixed11 (cv / ev * 100))
      else m
    | _, _ => m
  else m

/-- `create_csv_output`: the 3-row artifact (identifier header, descriptive
header, data row), modelled as the rows handed to the CSV writer. -/
def create_csv_output (final : List (Str × Str)) (dateStr : Str) :
    List (List Str) :=
  [ strL "Date" :: FINAL_CSV_COLUMNS,
    [] :: FINAL_CSV_COLUMNS.map (fun h => lookupD DESCRIPTIVE_HEADERS h),
    dateStr :: FINAL_CSV_COLUMNS.map (fun h => lookupD final h) ]

/-- The final mapping produced by `process_pdf_pair` after both engines
ran: direct mapping of all columns, then the derived cash field.  A
narrative-engine error is replaced by an empty mapping
(`press_release_data = {}`) before mapping. -/
def finalMapping (brok : List (Str × Str)) (pressRes : PressResult) :
    List (Str × Str) :=
  applyCashCalc (mapFields brok
    (match pressRes with
     | .error _ => []
     | .data d => d))

/-- The error-propagation core of `process_pdf_pair` downstream of the two
engines: a tabular terminal error aborts the pair (`return False`, no CSV);
a narrative terminal error degrades to an empty narrative contribution and
the record is still produced. -/
def process_pdf_pair_core (brokRes : BrokResult) (pressRes : PressResult)
    (dateStr : Str) : Option (List (List Str)) :=
  match brokRes with
  | .error _ => none
  | .data brok => some (create_csv_output (finalMapping brok pressRes) dateStr)

/-! ## Period resolver (the date-resolution section of `process_pdf_pair`)

The content-inference collaborators are passed as values: `contBrok` and
`contPress` are the `(year, month)` pairs that `extract_date_from_content`
yields on the two documents, and `detBrok` is the
`detect_latest_month_from_data` outcome on the brokerage text.  Following
Python truthiness (`None` and `0` are both falsy), an absent year or month
is encoded as `0`. -/

/-- The hint-or-content period resolution of `process_pdf_pair`.  Returns
the resolved `(year-string, month-number)` (or `none`, the fatal
`return False` of the source) together with a flag recording whether the
content-inference fallback block ran. -/
def resolveTargetPeriod (hint : Option Str) (contBrok contPress : Nat × Nat)
    (detBrok : Nat) : Option (Str × Nat) × Bool :=
  let hm : Str × Nat :=
    match hint with
    | some dp =>
      if dp ≠ [] ∧ dp.length = 6 ∧ dp.all isDigitChar = true then
        (dp.take 4, digitsVal (dp.drop 4))
      else ([], 0)
    | none => ([], 0)
  if hm.1 ≠ [] ∧ hm.2 ≠ 0 then (some hm, false)
  else
    let s1 : Str × Nat :=
      if contBrok.1 ≠ 0 then
        (natToChars contBrok.1,
         if contBrok.2 ≠ 0 then contBrok.2
         else if detBrok ≠ 0 then detBrok else hm.2)
      else hm
    let s2 : Str × Nat :=
      if s1.1 = [] ∨ s1.2 = 0 then
        ((if contPress.1 ≠ 0 ∧ s1.1 = [] then natToChars contPress.1 else s1.1),
         (if contPress.2 ≠ 0 ∧ s1.2 = 0 then contPress.2 else s1.2))
      else s1
    ((if s2.1 = [] ∨ s2.2 = 0 then none else some s2), true)

/-! ## Specification-side definitions used to state the claims -/

/-- The cascade selection rule as amended: first strategy whose mapping has
at least 5 metrics; for the third strategy any non-error result with a
non-empty mapping; otherwise the fixed terminal error. -/
def cascadeSpec (r1 r2 r3 : BrokResult) : BrokResult :=
  if 5 ≤ metricCount r1 ∧ isErr r1 = false then r1
  else if 5 ≤ metricCount r2 ∧ isErr r2 = false then r2
  else if isErr r3 = false ∧ r3 ≠ .data [] then r3
  else .error allStrategiesFailedMsg

/-- The canonical columns sourced from the narrative engine, derived from
the mapping table. -/
def narrativeColumns : List Str :=
  MAPPING_CONFIG.filterMap (fun p =>
    match p.2 with
    | .press_release _ _ => some p.1
    | .monthly_brokerage _ => none)

/-- Number of distinct month abbreviations occurring in a line (the
header-row criterion stated by the specification). -/
def monthAbbrCount (l : Str) : Nat :=
  (VALID_MONTHS.filter (fun m => hasSubstr l m)).length

/-- Criterion under which the source uses the 6-digit hint directly:
present, 6 characters, all digits, and a non-zero month part. -/
def hintUsedDirectly (hint : Option Str) : Bool :=
  match hint with
  | some dp =>
    decide (dp ≠ []) && decide (dp.length = 6) && dp.all isDigitChar &&
      decide (digitsVal (dp.drop 4) ≠ 0)
  | none => false

/-- Per-product specification of the narrative engine: the primary pattern
result if it matches, otherwise the backup pattern result, with the
corresponding value stripping. -/
def pressEntrySpec (product text : Str) : Option (List (Str × Str)) :=
  match primarySearch product text with
  | some g => some (primaryEntry g.1 g.2)
  | none => (backupSearch product text).map (fun g => backupEntry g.1 g.2)

/-- The narrative scenario text of the specification. -/
def pressScenarioText : Str := strL "Stocks 1,200,000 shares $0.85"

/-- A minimal document with one empty page (every strategy fails on it). -/
def emptyPageDoc : PDFDoc := ⟨[⟨none, [], []⟩]⟩

/-- Witness document for the header-gate claim: a brokerage-like page whose
text, words and table cells never mention `Aug`. -/
def c7WitnessDoc : PDFDoc :=
  ⟨[⟨some (strL "ELECTRONIC BROKERAGE 2025\nJan Feb Mar Apr\nTotal Accounts 1 2 3 4"),
     [⟨strL "2025", 10, 0⟩, ⟨strL "Jan", 10, 20⟩, ⟨strL "Feb", 30, 20⟩,
      ⟨strL "Mar", 50, 20⟩],
     [[[some (strL "Metric"), some (strL "Jan"), some (strL "Feb")],
       [some (strL "Total Accounts"), some (strL "1"), some (strL "2")]]]⟩]⟩

/-- Counterexample text for the month-inference claim: a header row with
eight month abbreviations (but not Jan/Feb/Mar) over a fully numeric row. -/
def c8CounterText : Str :=
  strL "Apr May Jun Jul Aug Sep Oct Nov\n10 11 12 13 14 15 16 17"

/-- Witness text for the month-inference helper: the real header shape and
a full 8-value data row. -/
def c8WitnessText : Str :=
  strL "Jan Feb Mar Apr May Jun Jul Aug\n1 2 3 4 5 6 7 8"

/-! ## Helper lemmas -/

theorem lookupOpt_map_replace {κ : Type} [DecidableEq κ]
    (d : List (κ × Str)) (k : κ) (v : Str) (key : κ) :
    lookupOpt (d.map (fun p => if p.1 = k then (p.1, v) else p)) key =
      (lookupOpt d key).map (fun w => if key = k then v else w) := by
  induction d with
  | nil => rfl
  | cons a t ih =>
    simp only [List.map_cons]
    by_cases hak : a.1 = k
    · rw [if_pos hak]
      by_cases hka : key = a.1
      · simp [lookupOpt, hka, hka.trans hak, hak]
      · simp [lookupOpt, hka, ih]
    · rw [if_neg hak]
      by_cases hka : key = a.1
      · have hkk : ¬ key = k := fun hh => hak (hka.symm.trans hh)
        simp [lookupOpt, hka, hkk, hak]
      · simp [lookupOpt, hka, ih]

theorem lookupOpt_append_right {κ : Type} [DecidableEq κ]
    (d1 d2 : List (κ × Str)) (key : κ) (h : lookupOpt d1 key = none) :
    lookupOpt (d1 ++ d2) key = lookupOpt d2 key := by
  induction d1 with
  | nil => rfl
  | cons a t ih =>
    rw [lookupOpt] at h
    by_cases hka : key = a.1
    · rw [if_pos hka] at h
      cases h
    · rw [if_neg hka] at h
      rw [List.cons_append, lookupOpt, if_neg hka]
      exact ih h

theorem lookupOpt_append_left {κ : Type} [DecidableEq κ]
    (d1 d2 : List (κ × Str)) (key : κ) (v : Str)
    (h : lookupOpt d1 key = some v) :
    lookupOpt (d1 ++ d2) key = some v := by
  induction d1 with
  | nil => cases h
  | cons a t ih =>
    rw [lookupOpt] at h
    by_cases hka : key = a.1
    · rw [if_pos hka] at h
      rw [List.cons_append, lookupOpt, if_pos hka]
      exact h
    · rw [if_neg hka] at h
      rw [List.cons_append, lookupOpt, if_neg hka]
      exact ih h

theorem lookupOpt_dictInsert_self {κ : Type} [DecidableEq κ]
    (d : List (κ × Str)) (k : κ) (v : Str) :
    lookupOpt (dictInsert d k v) k = some v := by
  by_cases hs : (lookupOpt d k).isSome
  · rw [dictInsert, if_pos hs, lookupOpt_map_replace]
    rcases Option.isSome_iff_exists.mp hs with ⟨w, hw⟩
    rw [hw]
    simp
  · rw [dictInsert, if_neg hs]
    rw [lookupOpt_append_right _ _ _ (Option.not_isSome_iff_eq_none.mp hs)]
    simp [lookupOpt]

theorem lookupOpt_dictInsert_ne {κ : Type} [DecidableEq κ]
    (d : List (κ × Str)) (k : κ) (v : Str) (key : κ) (h : key ≠ k) :
    lookupOpt (dictInsert d k v) key = lookupOpt d key := by
  by_cases hs : (lookupOpt d k).isSome
  · rw [dictInsert, if_pos hs, lookupOpt_map_replace]
    cases lookupOpt d key <;> simp [h]
  · rw [dictInsert, if_neg hs]
    cases hk : lookupOpt d key with
    | some w => exact lookupOpt_append_left _ _ _ _ hk
    | none =>
      rw [lookupOpt_append_right _ _ _ hk]
      simp [lookupOpt, h]

theorem findFirst_eq_none {α : Type} (p : α → Bool) (l : List α)
    (h : ∀ x ∈ l, p x = false) : findFirst p l = none := by
  induction l with
  | nil => rfl
  | cons a t ih =>
    rw [findFirst, h a (List.mem_cons_self a t)]
    simp only [Bool.false_eq_true, if_false]
    exact ih (fun x hx => h x (List.mem_cons_of_mem a hx))

theorem findFirst_eq_some {α : Type} (p : α → Bool) (l : List α) (x : α)
    (h : findFirst p l = some x) : x ∈ l ∧ p x = true := by
  induction l with
  | nil => simp [findFirst] at h
  | cons a t ih =>
    rw [findFirst] at h
    by_cases hp : p a
    · rw [if_pos hp] at h
      obtain rfl : a = x := by injection h
      exact ⟨List.mem_cons_self a t, hp⟩
    · rw [if_neg hp] at h
      rcases ih h with ⟨hm, hpx⟩
      exact ⟨List.mem_cons_of_mem a hm, hpx⟩

theorem findFirstIdx_eq_none {α : Type} (p : α → Bool) (l : List α)
    (h : ∀ x ∈ l, p x = false) : findFirstIdx p l = none := by
  induction l with
  | nil => rfl
  | cons a t ih =>
    rw [findFirstIdx, h a (List.mem_cons_self a t)]
    simp only [Bool.false_eq_true, if_false]
    rw [ih (fun x hx => h x (List.mem_cons_of_mem a hx))]
    rfl

theorem findFirstIdx_getD {α : Type} (p : α → Bool) (l : List α) (i : Nat)
    (d : α) (h : findFirstIdx p l = some i) :
    l.getD i d ∈ l ∧ p (l.getD i d) = true := by
  induction l generalizing i with
  | nil => simp [findFirstIdx] at h
  | cons a t ih =>
    rw [findFirstIdx] at h
    by_cases hp : p a
    · rw [if_pos hp] at h
      cases h
      exact ⟨List.mem_cons_self a t, by simpa using hp⟩
    · rw [if_neg hp] at h
      rcases Option.map_eq_some'.mp h with ⟨j, hj, hij⟩
      subst hij
      rcases ih j hj with ⟨hm, hpx⟩
      exact ⟨List.mem_cons_of_mem a hm, hpx⟩

theorem mem_insertByX0 (w y : PDFWord) (l : List PDFWord) :
    y ∈ insertByX0 w l ↔ y = w ∨ y ∈ l := by
  induction l with
  | nil => simp [insertByX0]
  | cons a t ih =>
    rw [insertByX0]
    by_cases hle : a.x0 ≤ w.x0
    · rw [if_pos hle]
      simp only [List.mem_cons, ih]
      tauto
    · rw [if_neg hle]
      simp

theorem mem_foldl_insertByX0 (y : PDFWord) (l acc : List PDFWord) :
    y ∈ l.foldl (fun acc w => insertByX0 w acc) acc ↔ y ∈ acc ∨ y ∈ l := by
  induction l generalizing acc with
  | nil => simp
  | cons a t ih =>
    rw [List.foldl_cons, ih]
    simp only [mem_insertByX0, List.mem_cons]
    tauto

theorem mem_sortByX0 (y : PDFWord) (l : List PDFWord) :
    y ∈ sortByX0 l ↔ y ∈ l := by
  rw [sortByX0, mem_foldl_insertByX0]
  simp

theorem findColBounds_eq_none (abbr : Str) (l : List PDFWord)
    (h : ∀ w ∈ l, w.text ≠ abbr) : findColBounds abbr l = none := by
  induction l with
  | nil => rfl
  | cons a t ih =>
    rw [findColBounds, if_neg (h a (List.mem_cons_self a t))]
    exact ih (fun w hw => h w (List.mem_cons_of_mem a hw))

theorem lookupD_applyCashCalc_ne (m : List (Str × Str)) (col : Str)
    (h : col ≠ colCASH) :
    lookupD (applyCashCalc m) col = lookupD m col := by
  rw [applyCashCalc]
  by_cases h1 : lookupD m colCREDITSTOTAL ≠ [] ∧ lookupD m colEQUITY ≠ []
  · rw [if_pos h1]
    cases pyFloatParse (stripCharsOf [','] (lookupD m colCREDITSTOTAL)) with
    | none => rfl
    | some cv =>
      cases pyFloatParse (stripCharsOf [','] (lookupD m colEQUITY)) with
      | none => rfl
      | some ev =>
        by_cases h2 : (0 : ℚ) < ev
        · simp only [if_pos h2]
          rw [lookupD, lookupOpt_dictInsert_ne _ _ _ _ h, lookupD]
        · simp only [if_neg h2]
  · rw [if_neg h1]

theorem lookupD_mapFields_credits (brok : List (Str × Str))
    (press : List (Str × List (Str × Str))) :
    lookupD (mapFields brok press) colCREDITSTOTAL =
      lookupD brok (strL "Client Credits") := rfl

theorem lookupD_mapFields_equity (brok : List (Str × Str))
    (press : List (Str × List (Str × Str))) :
    lookupD (mapFields brok press) colEQUITY =
      lookupD brok (strL "Client Equity") := rfl

theorem lookupD_mapFields_cash (brok : List (Str × Str))
    (press : List (Str × List (Str × Str))) :
    lookupD (mapFields brok press) colCASH =
      lookupD brok (strL "Cash as % of Assets") := rfl

/-! ## Claims -/

/-- C2 (counterexample): with a brokerage mapping that extracted a literal
`Cash as % of Assets` value but no `Client Credits`, the derived-field
inputs are absent, yet the cash output field is the extracted value, not
empty — refuting "in every other case the derived field is empty". -/
theorem c2_counterexample :
    lookupD (finalMapping [(strL "Cash as % of Assets", strL "1.5")]
      (.data [])) colCREDITSTOTAL = [] ∧
    lookupD (finalMapping [(strL "Cash as % of Assets", strL "1.5")]
      (.data [])) colCASH = strL "1.5" ∧
    strL "1.5" ≠ ([] : Str) := by decide

/-- C2 (amended): the cash output field equals
`(creditsTotal/clientEquity)*100` formatted to 11 decimal places whenever
both inputs are non-empty, parse as numbers, and the denominator is
positive; in every other case it equals the directly-mapped extracted
`Cash as % of Assets` value (which is empty only when that metric was not
extracted). -/
theorem c2_cash_amended (brok : List (Str × Str))
    (press : List (Str × List (Str × Str))) :
    lookupD (finalMapping brok (.data press)) colCASH =
      (if lookupD brok (strL "Client Credits") ≠ [] ∧
          lookupD brok (strL "Client Equity") ≠ [] then
        match pyFloatParse (stripCharsOf [','] (lookupD brok (strL "Client Credits"))),
            pyFloatParse (stripCharsOf [','] (lookupD brok (strL "Client Equity"))) with
        | some cv, some ev =>
          if 0 < ev then formatFixed11 (cv / ev * 100)
          else lookupD brok (strL "Cash as % of Assets")
        | some _, none => lookupD brok (strL "Cash as % of Assets")
        | none, _ => lookupD brok (strL "Cash as % of Assets")
      else lookupD brok (strL "Cash as % of Assets")) := by
  show lookupD (applyCashCalc (mapFields brok press)) colCASH = _
  simp only [applyCashCalc, lookupD_mapFields_credits, lookupD_mapFields_equity]
  by_cases h1 : lookupD brok (strL "Client Credits") ≠ [] ∧
      lookupD brok (strL "Client Equity") ≠ []
  · rw [if_pos h1, if_pos h1]
    cases hcv : pyFloatParse
        (stripCharsOf [','] (lookupD brok (strL "Client Credits"))) with
    | none => exact lookupD_mapFields_cash brok press
    | some cv =>
      cases hev : pyFloatParse
          (stripCharsOf [','] (lookupD brok (strL "Client Equity"))) with
      | none => exact lookupD_mapFields_cash brok press
      | some ev =>
        dsimp only
        by_cases h2 : (0 : ℚ) < ev
        · rw [if_pos h2, if_pos h2, lookupD, lookupOpt_dictInsert_self]
          rfl
        · rw [if_neg h2, if_neg h2]
          exact lookupD_mapFields_cash brok press
  · rw [if_neg h1, if_neg h1]
    exact lookupD_mapFields_cash brok press

/-- C5: a tabular-engine terminal error is fatal (no record is produced),
while a narrative-engine terminal error is non-fatal: the record is still
produced, it coincides with the record computed from an empty narrative
mapping, and every narrative-sourced canonical field is empty. -/
theorem c5_error_propagation (e emsg dateStr : Str) (pressRes : PressResult)
    (brok : List (Str × Str)) :
    process_pdf_pair_core (.error e) pressRes dateStr = none ∧
    process_pdf_pair_core (.data brok) (.error emsg) dateStr =
      some (create_csv_output (finalMapping brok (.error emsg)) dateStr) ∧
    process_pdf_pair_core (.data brok) (.error emsg) dateStr =
      process_pdf_pair_core (.data brok) (.data []) dateStr ∧
    (∀ col ∈ narrativeColumns,
      lookupD (finalMapping brok (.error emsg)) col = []) := by
  refine ⟨rfl, rfl, rfl, ?_⟩
  intro col hcol
  fin_cases hcol <;>
    · rw [show finalMapping brok (.error emsg) =
          applyCashCalc (mapFields brok []) from rfl,
        lookupD_applyCashCalc_ne _ _ (by decide)]
      rfl

/-- C5 (witness): the propagation claim evaluated on a concrete pair. -/
theorem c5_error_propagation_witness :
    process_pdf_pair_core (.error (strL "PDF has no pages")) (.data [])
      (strL "2025-08") = none ∧
    lookupD (finalMapping [(strL "Total Accounts", strL "2550.9")]
      (.error (strL "No text extracted from press release PDF")))
      (strL "USA.OBD.INTERACTIVE.AVGORDER.STOCK.M") = [] :=
  ⟨(c5_error_propagation (strL "PDF has no pages")
      (strL "No text extracted from press release PDF") (strL "2025-08")
      (.data []) [(strL "Total Accounts", strL "2550.9")]).1,
   (c5_error_propagation (strL "PDF has no pages")
      (strL "No text extracted from press release PDF") (strL "2025-08")
      (.data []) [(strL "Total Accounts", strL "2550.9")]).2.2.2
      (strL "USA.OBD.INTERACTIVE.AVGORDER.STOCK.M") (by decide)⟩

/-- C6 (counterexample): the canonical record has 20 named output fields,
not 19 as claimed. -/
theorem c6_counterexample :
    FINAL_CSV_COLUMNS.length = 20 ∧ FINAL_CSV_COLUMNS.length ≠ 19 := by
  decide

/-- C6 (amended): the output artifact is exactly 3 rows; the first row is
the fixed identifier header (`Date` followed by the 20 canonical columns,
never reordered), every row has 21 cells, and the data row is the period
string followed by the 20 field values in that fixed column order. -/
theorem c6_record_shape (final : List (Str × Str)) (dateStr : Str) :
    FINAL_CSV_COLUMNS.length = 20 ∧
    (create_csv_output final dateStr).length = 3 ∧
    (∀ row ∈ create_csv_output final dateStr, row.length = 21) ∧
    (create_csv_output final dateStr).getD 0 [] =
      strL "Date" :: FINAL_CSV_COLUMNS ∧
    (create_csv_output final dateStr).getD 2 [] =
      dateStr :: FINAL_CSV_COLUMNS.map (fun h => lookupD final h) := by
  refine ⟨by decide, rfl, ?_, rfl, rfl⟩
  intro row hrow
  rw [create_csv_output] at hrow
  simp only [List.mem_cons, List.not_mem_nil, or_false] at hrow
  rcases hrow with rfl | rfl | rfl
  · decide
  · simp only [List.length_cons, List.length_map]
    decide
  · simp only [List.length_cons, List.length_map]
    decide

/-- C6 (witness): the record-shape claim on a concrete record. -/
theorem c6_record_shape_witness :
    (∀ row ∈ create_csv_output [(colCASH, strL "25.00000000000")]
      (strL "2025-08"), row.length = 21) :=
  (c6_record_shape [(colCASH, strL "25.00000000000")] (strL "2025-08")).2.2.1

theorem sufficientResult_iff (r : BrokResult) :
    sufficientResult r = true ↔ (5 ≤ metricCount r ∧ isErr r = false) := by
  cases r with
  | error m => simp [sufficientResult, isErr, metricCount]
  | data d =>
    simp only [sufficientResult, isErr, metricCount, Bool.and_eq_true,
      decide_eq_true_eq, and_true]
    exact ⟨fun h => h.2, fun h => ⟨fun he => by simp [he] at h, h⟩⟩

theorem acceptableThird_iff (r : BrokResult) :
    acceptableThird r = true ↔ (isErr r = false ∧ r ≠ .data []) := by
  cases r with
  | error m => simp [acceptableThird, isErr]
  | data d => simp [acceptableThird, isErr]

theorem select_eq_cascadeSpec (r1 r2 r3 : BrokResult) :
    selectStrategyResults r1 r2 r3 = cascadeSpec r1 r2 r3 := by
  rw [selectStrategyResults, cascadeSpec]
  by_cases h1 : sufficientResult r1 = true
  · rw [if_pos h1, if_pos ((sufficientResult_iff r1).mp h1)]
  · rw [if_neg h1, if_neg (fun hc => h1 ((sufficientResult_iff r1).mpr hc))]
    by_cases h2 : sufficientResult r2 = true
    · rw [if_pos h2, if_pos ((sufficientResult_iff r2).mp h2)]
    · rw [if_neg h2,
        if_neg (fun hc => h2 ((sufficientResult_iff r2).mpr hc))]
      by_cases h3 : acceptableThird r3 = true
      · rw [if_pos h3, if_pos ((acceptableThird_iff r3).mp h3)]
      · rw [if_neg h3, if_neg (fun hc => h3 ((acceptableThird_iff r3).mpr hc))]

/-- C1 (counterexample): with the first two strategies failing and the
third returning a non-error empty mapping, the engine returns the fixed
terminal error — refuting "for the third strategy any non-error result is
accepted" (and the returned error is the engine's own fixed message, not
an error of the third strategy, which returned no error at all). -/
theorem c1_counterexample :
    selectStrategyResults (.error (strL "No text extracted from PDF"))
      (.error (strL "No words extracted from PDF")) (.data []) =
      .error allStrategiesFailedMsg ∧
    PyResult.error allStrategiesFailedMsg ≠ (.data [] : BrokResult) := by
  decide

/-- C1 (amended): on validated inputs (month 1–12 with its abbreviation,
year a 2015–2030 numeral, a non-empty document) the engine runs the three
strategies in strict priority order and returns the first whose mapping
has at least 5 metrics; the third strategy is accepted on any non-error
result with a non-empty mapping; otherwise the fixed terminal
all-strategies-failed error is returned. -/
theorem c1_cascade_amended (doc : PDFDoc) (year : Str) (m : Nat)
    (abbr : Str) (yv : ℤ)
    (habbr : lookupOpt MONTH_MAPPING m = some abbr)
    (hy : pyIntParse year = some yv)
    (hyr : 2015 ≤ yv ∧ yv ≤ 2030)
    (hmr : 1 ≤ m ∧ m ≤ 12)
    (hp : doc.pages ≠ []) :
    parse_monthly_brokerage_data doc year m =
      cascadeSpec (parse_using_text_extraction doc year abbr)
        (parse_using_coordinates doc year abbr)
        (parse_using_table_extraction doc year abbr) := by
  simp only [parse_monthly_brokerage_data, habbr]
  simp only [validate_date_params, hy]
  rw [if_neg (not_not_intro hyr), if_neg (not_not_intro hmr)]
  rw [if_neg hp]
  exact select_eq_cascadeSpec _ _ _

/-- C1 (witness): the amended cascade statement on a concrete document. -/
theorem c1_cascade_amended_witness :
    parse_monthly_brokerage_data emptyPageDoc (strL "2025") 8 =
      cascadeSpec
        (parse_using_text_extraction emptyPageDoc (strL "2025") (strL "Aug"))
        (parse_using_coordinates emptyPageDoc (strL "2025") (strL "Aug"))
        (parse_using_table_extraction emptyPageDoc (strL "2025") (strL "Aug")) :=
  c1_cascade_amended emptyPageDoc (strL "2025") 8 (strL "Aug") 2025
    (by decide) (by decide) (by decide) (by decide) (by decide)

/-- C3 (counterexample): all three strategies return fewer than 5 metrics
(two errors and a one-metric mapping), yet the engine does not return the
terminal all-strategies-failed error — it returns the third strategy's
partial mapping.  This refutes the "if" direction of the claimed
equivalence. -/
theorem c3_counterexample :
    (metricCount (.data [(strL "Total Accounts", strL "100")]) < 5 ∧
     isErr (.error (strL "e1") : BrokResult) = true ∧
     isErr (.error (strL "e2") : BrokResult) = true) ∧
    selectStrategyResults (.error (strL "e1")) (.error (strL "e2"))
      (.data [(strL "Total Accounts", strL "100")]) ≠
      .error allStrategiesFailedMsg := by
  decide

/-- C3 (amended): the terminal all-strategies-failed error is returned iff
the first two strategies each return an error or fewer than 5 metrics and
the third returns an error or an empty mapping. -/
theorem c3_allfailed_iff (r1 r2 r3 : BrokResult) :
    selectStrategyResults r1 r2 r3 = .error allStrategiesFailedMsg ↔
      ((isErr r1 = true ∨ metricCount r1 < 5) ∧
       (isErr r2 = true ∨ metricCount r2 < 5) ∧
       (isErr r3 = true ∨ r3 = .data [])) := by
  have insuff : ∀ r : BrokResult,
      sufficientResult r ≠ true ↔ (isErr r = true ∨ metricCount r < 5) := by
    intro r
    constructor
    · intro hn
      cases hb : isErr r with
      | true => exact Or.inl rfl
      | false =>
        right
        by_contra hlt
        exact hn ((sufficientResult_iff r).mpr ⟨by omega, hb⟩)
    · intro h hs
      rcases (sufficientResult_iff r).mp hs with ⟨hc, he⟩
      rcases h with h | h
      · rw [he] at h
        cases h
      · omega
  have unacc : acceptableThird r3 ≠ true ↔
      (isErr r3 = true ∨ r3 = .data []) := by
    constructor
    · intro hn
      cases hb : isErr r3 with
      | true => exact Or.inl rfl
      | false =>
        right
        by_contra hne
        exact hn ((acceptableThird_iff r3).mpr ⟨hb, hne⟩)
    · intro h ha
      rcases (acceptableThird_iff r3).mp ha with ⟨he, hne⟩
      rcases h with h | h
      · rw [he] at h
        cases h
      · exact hne h
  constructor
  · intro hsel
    by_cases h1 : sufficientResult r1 = true
    · rw [selectStrategyResults, if_pos h1] at hsel
      rcases (sufficientResult_iff r1).mp h1 with ⟨_, he⟩
      rw [hsel] at he
      cases he
    · by_cases h2 : sufficientResult r2 = true
      · rw [selectStrategyResults, if_neg h1, if_pos h2] at hsel
        rcases (sufficientResult_iff r2).mp h2 with ⟨_, he⟩
        rw [hsel] at he
        cases he
      · by_cases h3 : acceptableThird r3 = true
        · rw [selectStrategyResults, if_neg h1, if_neg h2, if_pos h3] at hsel
          rcases (acceptableThird_iff r3).mp h3 with ⟨he, _⟩
          rw [hsel] at he
          cases he
        · exact ⟨(insuff r1).mp h1, (insuff r2).mp h2, unacc.mp h3⟩
  · rintro ⟨h1, h2, h3⟩
    rw [selectStrategyResults, if_neg ((insuff r1).mpr h1),
      if_neg ((insuff r2).mpr h2), if_neg (unacc.mpr h3)]

/-- C3 (witness): the amended equivalence applied to three failing
strategies: the terminal error is produced. -/
theorem c3_allfailed_iff_witness :
    selectStrategyResults (.error (strL "No text extracted from PDF"))
      (.error (strL "No words extracted from PDF"))
      (.error (strL "No tables found in PDF")) =
      .error allStrategiesFailedMsg :=
  (c3_allfailed_iff (.error (strL "No text extracted from PDF"))
    (.error (strL "No words extracted from PDF"))
    (.error (strL "No tables found in PDF"))).mpr (by decide)

/-- C10: a month number outside 1–12 is rejected with the invalid-month
sentinel, and (month valid) a year numeral outside 2015–2030 is rejected
with the year-range sentinel — in both cases before the document is
consulted, so the result is identical for any two documents and no
extraction strategy runs. -/
theorem c10_range_guard (doc doc' : PDFDoc) (year : Str) (m : Nat) :
    (¬ (1 ≤ m ∧ m ≤ 12) →
      parse_monthly_brokerage_data doc year m =
        .error (strL "Invalid target month number: " ++ natToChars m) ∧
      parse_monthly_brokerage_data doc year m =
        parse_monthly_brokerage_data doc' year m) ∧
    (∀ yv : ℤ, pyIntParse year = some yv → ¬ (2015 ≤ yv ∧ yv ≤ 2030) →
      1 ≤ m → m ≤ 12 →
      parse_monthly_brokerage_data doc year m =
        .error (strL "Year must be between 2015 and 2030") ∧
      parse_monthly_brokerage_data doc year m =
        parse_monthly_brokerage_data doc' year m) := by
  constructor
  · intro hm
    have hnone : lookupOpt MONTH_MAPPING m = none := by
      simp only [MONTH_MAPPING, lookupOpt]
      repeat rw [if_neg (by omega)]
    have hall : ∀ d : PDFDoc, parse_monthly_brokerage_data d year m =
        .error (strL "Invalid target month number: " ++ natToChars m) := by
      intro d
      simp only [parse_monthly_brokerage_data, hnone]
    exact ⟨hall doc, (hall doc).trans (hall doc').symm⟩
  · intro yv hy hyr h1 h2
    have hsome : (lookupOpt MONTH_MAPPING m).isSome := by
      interval_cases m <;> decide
    rcases Option.isSome_iff_exists.mp hsome with ⟨abbr, habbr⟩
    have hall : ∀ d : PDFDoc, parse_monthly_brokerage_data d year m =
        .error (strL "Year must be between 2015 and 2030") := by
      intro d
      simp only [parse_monthly_brokerage_data, habbr]
      simp only [validate_date_params, hy]
      rw [if_pos hyr]
    exact ⟨hall doc, (hall doc).trans (hall doc').symm⟩

/-- C10 (witness): the guards evaluated at month 13 and at year 2031. -/
theorem c10_range_guard_witness :
    parse_monthly_brokerage_data emptyPageDoc (strL "2025") 13 =
      .error (strL "Invalid target month number: " ++ natToChars 13) ∧
    parse_monthly_brokerage_data emptyPageDoc (strL "2031") 8 =
      .error (strL "Year must be between 2015 and 2030") :=
  ⟨((c10_range_guard emptyPageDoc ⟨[]⟩ (strL "2025") 13).1 (by omega)).1,
   ((c10_range_guard emptyPageDoc ⟨[]⟩ (strL "2031") 8).2 2031 (by decide)
      (by omega) (by omega) (by omega)).1⟩

/-- C4 (counterexample): the hint `202513` is malformed under the claim's
criterion (month 13 is outside 1–12), yet the resolver uses it directly —
the content parameters (which read 2024‑06, with 7 inferable from data)
are never consulted (flag `false`) and the resolved period is `(2025, 13)`. -/
theorem c4_counterexample :
    resolveTargetPeriod (some (strL "202513")) (2024, 6) (2024, 6) 7 =
      (some (strL "2025", 13), false) ∧ ¬ (13 ≤ 12) := by
  decide

/-- C4 (amended): a present 6-digit all-numeric hint whose month part is
non-zero is used directly — its year and month are taken verbatim, even
out of range, without consulting document content (range validation
happens later in the tabular engine); content inference is triggered
exactly when the hint is absent, not 6 digits, not all digits, or has
month part `00`. -/
theorem c4_hint_resolution (hint : Option Str) (cb cp cb' cp' : Nat × Nat)
    (db db' : Nat) :
    (∀ dp, hint = some dp → hintUsedDirectly hint = true →
      resolveTargetPeriod hint cb cp db =
        (some (dp.take 4, digitsVal (dp.drop 4)), false) ∧
      resolveTargetPeriod hint cb cp db =
        resolveTargetPeriod hint cb' cp' db') ∧
    (hintUsedDirectly hint = false →
      (resolveTargetPeriod hint cb cp db).2 = true) := by
  constructor
  · rintro dp rfl hu
    rw [hintUsedDirectly] at hu
    simp only [Bool.and_eq_true, decide_eq_true_eq] at hu
    obtain ⟨⟨⟨hne, hlen⟩, hdig⟩, hm⟩ := hu
    have hcond : dp ≠ [] ∧ dp.length = 6 ∧ dp.all isDigitChar = true :=
      ⟨hne, hlen, hdig⟩
    have ht : dp.take 4 ≠ [] := by
      intro h
      have hlt := congrArg List.length h
      rw [List.length_take, hlen] at hlt
      cases hlt
    have hres : ∀ (cbx cpx : Nat × Nat) (dbx : Nat),
        resolveTargetPeriod (some dp) cbx cpx dbx =
          (some (dp.take 4, digitsVal (dp.drop 4)), false) := by
      intro cbx cpx dbx
      rw [resolveTargetPeriod]
      simp only
      rw [if_pos hcond, if_pos ⟨ht, hm⟩]
    exact ⟨hres cb cp db, (hres cb cp db).trans (hres cb' cp' db').symm⟩
  · intro hu
    cases hint with
    | none =>
      rw [resolveTargetPeriod]
      simp only
      rw [if_neg (by decide : ¬ (([] : Str) ≠ [] ∧ (0 : Nat) ≠ 0))]
    | some dp =>
      by_cases hcond : dp ≠ [] ∧ dp.length = 6 ∧ dp.all isDigitChar = true
      · have h0 : digitsVal (dp.drop 4) = 0 := by
          by_contra h0
          rw [hintUsedDirectly] at hu
          simp [hcond.1, hcond.2.1, hcond.2.2, h0] at hu
        rw [resolveTargetPeriod]
        simp only
        rw [if_pos hcond, if_neg (fun hc => hc.2 h0)]
      · rw [resolveTargetPeriod]
        simp only
        rw [if_neg hcond,
          if_neg (by decide : ¬ (([] : Str) ≠ [] ∧ (0 : Nat) ≠ 0))]

/-- C4 (witness): a valid hint resolved directly and content-independently,
and an absent hint triggering inference. -/
theorem c4_hint_resolution_witness :
    resolveTargetPeriod (some (strL "202508")) (2024, 6) (2023, 5) 7 =
      (some ((strL "202508").take 4, digitsVal ((strL "202508").drop 4)),
        false) ∧
    resolveTargetPeriod (some (strL "202508")) (2024, 6) (2023, 5) 7 =
      resolveTargetPeriod (some (strL "202508")) (0, 0) (0, 0) 0 ∧
    (resolveTargetPeriod none (2024, 6) (2023, 5) 7).2 = true :=
  ⟨((c4_hint_resolution (some (strL "202508")) (2024, 6) (2023, 5) (0, 0)
      (0, 0) 7 0).1 (strL "202508") rfl (by decide)).1,
   ((c4_hint_resolution (some (strL "202508")) (2024, 6) (2023, 5) (0, 0)
      (0, 0) 7 0).1 (strL "202508") rfl (by decide)).2,
   (c4_hint_resolution none (2024, 6) (2023, 5) (0, 0) (0, 0) 7 0).2
     (by decide)⟩

/-- C8 (counterexample): a document whose header row holds eight known
month abbreviations (at least three, as the claim's criterion requires)
above a fully numeric 8-token data row, yet the month-inference helper
returns nothing — the source requires `Jan`, `Feb`, `Mar` and `Aug`
literally in the header line, so no month is inferred. -/
theorem c8_counterexample :
    detect_latest_month_from_data c8CounterText 2025 = none ∧
    strL "Apr May Jun Jul Aug Sep Oct Nov" ∈ splitLines c8CounterText ∧
    3 ≤ monthAbbrCount (strL "Apr May Jun Jul Aug Sep Oct Nov") ∧
    strL "10 11 12 13 14 15 16 17" ∈ splitLines c8CounterText ∧
    8 ≤ (findNumericTokens (strL "10 11 12 13 14 15 16 17")).length := by
  decide

/-- C8 (amended): when the helper infers a month `m`, the document has a
header line containing `Jan`, `Feb`, `Mar` and `Aug` (not merely any three
abbreviations), and `m` is the numeric-token count (at least 8, capped at
12) of a digit-bearing line containing none of `Jan`/`Feb`/`Mar`.  (The
resolver can only reach this helper when content inference found a year
without a month, a combination the content extractor never produces, so
the claim's trigger is additionally unreachable in the pipeline.) -/
theorem c8_detect_amended (text : Str) (yr m : Nat)
    (h : detect_latest_month_from_data text yr = some m) :
    8 ≤ m ∧ m ≤ 12 ∧
    (∃ l ∈ splitLines text,
      (hasSubstr l (strL "Jan") && hasSubstr l (strL "Feb") &&
       hasSubstr l (strL "Mar") && hasSubstr l (strL "Aug")) = true) ∧
    (∃ l ∈ splitLines text,
      (hasSubstr l (strL "Jan") || hasSubstr l (strL "Feb") ||
       hasSubstr l (strL "Mar")) = false ∧
      l.any isDigitChar = true ∧
      8 ≤ (findNumericTokens l).length ∧
      m = min (findNumericTokens l).length 12) := by
  rw [detect_latest_month_from_data] at h
  split at h
  · cases h
  next l1 heq1 =>
    split at h
    · cases h
    next l2 heq2 =>
      obtain rfl : min (findNumericTokens l2).length 12 = m := by
        injection h
      obtain ⟨hm1, hp1⟩ := findFirst_eq_some _ _ _ heq1
      obtain ⟨hm2, hp2⟩ := findFirst_eq_some _ _ _ heq2
      simp only [Bool.and_eq_true, Bool.not_eq_true', decide_eq_true_eq]
        at hp2
      obtain ⟨⟨hnj, hdig⟩, hlen⟩ := hp2
      refine ⟨by omega, by omega, ⟨l1, hm1, hp1⟩,
        ⟨l2, hm2, hnj, hdig, hlen, rfl⟩⟩

/-- C8 (witness): on the real header shape with a full 8-value data row
the helper infers month 8 and the amended properties hold. -/
theorem c8_detect_amended_witness :
    detect_latest_month_from_data c8WitnessText 2025 = some 8 ∧
    (8 ≤ 8 ∧ 8 ≤ 12 ∧
      (∃ l ∈ splitLines c8WitnessText,
        (hasSubstr l (strL "Jan") && hasSubstr l (strL "Feb") &&
         hasSubstr l (strL "Mar") && hasSubstr l (strL "Aug")) = true) ∧
      (∃ l ∈ splitLines c8WitnessText,
        (hasSubstr l (strL "Jan") || hasSubstr l (strL "Feb") ||
         hasSubstr l (strL "Mar")) = false ∧
        l.any isDigitChar = true ∧
        8 ≤ (findNumericTokens l).length ∧
        8 = min (findNumericTokens l).length 12)) :=
  ⟨by decide, c8_detect_amended c8WitnessText 2025 8 (by decide)⟩

/-- C9 (counterexample): on the specification's scenario text the primary
narrative-phrase pattern for Stocks does match (so the claimed "via the
backup pattern when the primary phrasing pattern does not match" is wrong
about this text), while the extracted values are as stated. -/
theorem c9_counterexample :
    (primarySearch (strL "Stocks") pressScenarioText).isSome = true ∧
    lookupOpt (pressExtract pressScenarioText) (strL "Stocks") =
      some [(strL "Average Order Size", strL "1200000"),
            (strL "Average Commission", strL "0.85")] := by
  decide

set_option maxHeartbeats 1000000 in
/-- C9 (amended): for each of the three fixed products the narrative
engine uses the primary pattern's match when it exists and the backup
pattern's match otherwise, never reprocessing a product already resolved,
with unit words and grouping separators stripped — and the scenario text
`"Stocks 1,200,000 shares $0.85"` yields Stocks → {Average Order Size
"1200000", Average Commission "0.85"} via the primary pattern, which does
match that text. -/
theorem c9_press_priority (text : Str) :
    ∀ product ∈ pressProducts,
      lookupOpt (pressExtract text) product = pressEntrySpec product text := by
  intro product hp
  have d1 : (strL "Equity Options" = strL "Stocks") = False := by decide
  have d2 : (strL "Futures" = strL "Stocks") = False := by decide
  have d3 : (strL "Stocks" = strL "Equity Options") = False := by decide
  have d4 : (strL "Futures" = strL "Equity Options") = False := by decide
  have d5 : (strL "Stocks" = strL "Futures") = False := by decide
  have d6 : (strL "Equity Options" = strL "Futures") = False := by decide
  simp only [pressProducts, List.mem_cons, List.not_mem_nil, or_false] at hp
  rcases hp with rfl | rfl | rfl <;>
    cases hps : primarySearch (strL "Stocks") text <;>
    cases hpe : primarySearch (strL "Equity Options") text <;>
    cases hpf : primarySearch (strL "Futures") text <;>
    cases hbs : backupSearch (strL "Stocks") text <;>
    cases hbe : backupSearch (strL "Equity Options") text <;>
    cases hbf : backupSearch (strL "Futures") text <;>
      simp only [pressExtract, pressPass, pressProducts, List.foldl_cons,
        List.foldl_nil, hps, hpe, hpf, hbs, hbe, hbf, pressEntrySpec,
        lookupOpt, Option.isSome_some, Option.isSome_none, Option.map_some',
        Option.map_none', d1, d2, d3, d4, d5, d6, eq_self_iff_true,
        Bool.false_eq_true, ite_true, ite_false, List.nil_append,
        List.cons_append, List.append_nil]

/-- C9 (witness): the priority characterization applied to the scenario
text and the Stocks product. -/
theorem c9_press_priority_witness :
    lookupOpt (pressExtract pressScenarioText) (strL "Stocks") =
      pressEntrySpec (strL "Stocks") pressScenarioText :=
  c9_press_priority pressScenarioText (strL "Stocks") (by decide)

theorem stratCTable_skip (abbr : Str) (acc : List (Str × Str))
    (t : List (List (Option Str)))
    (h : ∀ row ∈ t, ∀ c ∈ row, ∀ s, c = some s → hasSubstr s abbr = false) :
    stratCTable abbr acc t = acc := by
  rw [stratCTable]
  by_cases hl : t.length < 2
  · rw [if_pos hl]
  · rw [if_neg hl]
    have hcol : findHeaderCol abbr t = none := by
      rw [findHeaderCol]
      cases hh : findFirstIdx isMonthRow t with
      | none => rfl
      | some hIdx =>
        have hmem := (findFirstIdx_getD isMonthRow t hIdx [] hh).1
        have hnone : findFirstIdx (fun c =>
            match cellTruthy c with
            | some s => hasSubstr s abbr
            | none => false) (t.getD hIdx []) = none := by
          apply findFirstIdx_eq_none
          intro c hc
          cases c with
          | none => rfl
          | some s =>
            by_cases hs : s = []
            · simp [cellTruthy, hs]
            · simp only [cellTruthy, if_neg hs]
              exact h _ hmem (some s) hc s rfl
        dsimp only
        rw [hnone]
    rw [hcol]

/-- C7: when the target month abbreviation occurs nowhere in the document
(no text line, no positioned word, no table cell contains it), each
strategy fails rather than inferring a column from geometry: Strategies A
and B return a result-level error and Strategy C returns an error or an
empty mapping. -/
theorem c7_header_gate (doc : PDFDoc) (year abbr : Str)
    (hA : ∀ l ∈ splitLines (fullTextOf doc), hasSubstr l abbr = false)
    (hB : ∀ p ∈ doc.pages, ∀ w ∈ p.words, w.text ≠ abbr)
    (hC : ∀ p ∈ doc.pages, ∀ t ∈ p.tables, ∀ row ∈ t, ∀ c ∈ row, ∀ s,
      c = some s → hasSubstr s abbr = false) :
    isErr (parse_using_text_extraction doc year abbr) = true ∧
    isErr (parse_using_coordinates doc year abbr) = true ∧
    (isErr (parse_using_table_extraction doc year abbr) = true ∨
     parse_using_table_extraction doc year abbr = .data []) := by
  refine ⟨?_, ?_, ?_⟩
  · rw [parse_using_text_extraction]
    simp only
    by_cases h1 : pyStrip (fullTextOf doc) = []
    · rw [if_pos h1]
      rfl
    · rw [if_neg h1]
      by_cases h2 : hasSubstr (fullTextOf doc) year = true
      · rw [if_neg (not_not_intro h2)]
        have hnone : findFirstIdx (fun l =>
            hasSubstr l (strL "Jan") && hasSubstr l (strL "Feb") &&
            hasSubstr l (strL "Mar") && hasSubstr l abbr)
            (splitLines (fullTextOf doc)) = none := by
          apply findFirstIdx_eq_none
          intro l hl
          rw [hA l hl]
          simp
        rw [hnone]
        rfl
      · rw [if_pos h2]
        rfl
  · rw [parse_using_coordinates]
    cases hpg : doc.pages with
    | nil => rfl
    | cons p rest =>
      have hpmem : p ∈ doc.pages := by
        rw [hpg]
        exact List.mem_cons_self p rest
      dsimp only
      by_cases hw : p.words = []
      · rw [if_pos hw]
        rfl
      · rw [if_neg hw]
        cases hyw : findFirst (fun w => hasSubstr w.text year) p.words with
        | none => rfl
        | some yw =>
          dsimp only
          by_cases hlen : (sortByX0 (p.words.filter (fun w =>
              decide (w.text ∈ VALID_MONTHS) &&
              decide (yw.top - 15 < w.top)))).length < 3
          · rw [if_pos hlen]
            rfl
          · rw [if_neg hlen]
            have hcb : findColBounds abbr (sortByX0 (p.words.filter (fun w =>
                decide (w.text ∈ VALID_MONTHS) &&
                decide (yw.top - 15 < w.top)))) = none := by
              apply findColBounds_eq_none
              intro w hwmem
              exact hB p hpmem w
                (List.mem_of_mem_filter ((mem_sortByX0 w _).mp hwmem))
            rw [hcb]
            rfl
  · rw [parse_using_table_extraction]
    cases hpg : doc.pages with
    | nil => exact Or.inl rfl
    | cons p rest =>
      have hpmem : p ∈ doc.pages := by
        rw [hpg]
        exact List.mem_cons_self p rest
      dsimp only
      by_cases ht : p.tables = []
      · rw [if_pos ht]
        exact Or.inl rfl
      · rw [if_neg ht]
        right
        have hfold : ∀ ts : List (List (List (Option Str))),
            (∀ t ∈ ts, t ∈ p.tables) →
            ts.foldl (stratCTable abbr) [] = [] := by
          intro ts
          induction ts with
          | nil => intro _; rfl
          | cons t ts2 ih =>
            intro hsub
            rw [List.foldl_cons, stratCTable_skip abbr [] t
              (hC p hpmem t (hsub t (List.mem_cons_self t ts2)))]
            exact ih (fun x hx => hsub x (List.mem_cons_of_mem t hx))
        rw [hfold p.tables (fun t hmem => hmem)]

/-- C7 (witness): the header gate evaluated for target `Aug` on a concrete
document none of whose lines, words or cells mention `Aug`. -/
theorem c7_header_gate_witness :
    isErr (parse_using_text_extraction c7WitnessDoc (strL "2025")
      (strL "Aug")) = true ∧
    isErr (parse_using_coordinates c7WitnessDoc (strL "2025")
      (strL "Aug")) = true ∧
    (isErr (parse_using_table_extraction c7WitnessDoc (strL "2025")
      (strL "Aug")) = true ∨
     parse_using_table_extraction c7WitnessDoc (strL "2025") (strL "Aug") =
       .data []) :=
  c7_header_gate c7WitnessDoc (strL "2025") (strL "Aug")
    (by decide) (by decide) (by decide)

end IBKR
